import Mathlib

/-!
# dnscat2 client drivers: `driver_dns.c` and `driver_console.c`

A shallow embedding of the DNS tunnel driver (`src/client/driver_dns.c`) and of
the console driver (`src/client/drivers/driver_console.c`), and theorems about
the wire encoding, the receive callback, the drain functions and the socket
life cycle.

Conventions of the embedding.

* A C `char` and a `uint8_t` are natural numbers (character codes / byte values);
  where the C code narrows a value to eight bits the embedding writes `% 256`.
* A NUL-terminated C string is the list of its characters before the
  terminator; reading the string at its length gives the terminator `0`.
* Every call that leaves the translated functions (`printf`, the socket and the
  select-group primitives) is recorded, in program order, in a trace of `Event`s.
* A call ends in a `Termination`: it returns, the process exits, or an `assert`
  aborts it.
-/

namespace Dnscat2

/-! ## C strings and `<ctype.h>` / `<string.h>` / `<stdlib.h>` helpers -/

/-- The characters of a string literal as C character codes. -/
def cstr (s : String) : List Nat := s.toList.map Char.toNat

/-- Reads `s[i]` of a NUL-terminated string: the terminator is read at the end. -/
def char_at (s : List Nat) (i : Nat) : Nat := s.getD i 0

/-- The C library's `isxdigit` in the C locale: `0-9`, `A-F`, `a-f`. -/
def isxdigit (c : Nat) : Bool :=
  (48 ≤ c && c ≤ 57) || (65 ≤ c && c ≤ 70) || (97 ≤ c && c ≤ 102)

/-- The value of one hexadecimal digit character, as `strtol` with base 16 reads it. -/
def hex_value (c : Nat) : Nat :=
  if 48 ≤ c ∧ c ≤ 57 then c - 48
  else if 65 ≤ c ∧ c ≤ 70 then c - 55
  else c - 87

/-- The C library's `strtol(buf, NULL, 16)` on a string that starts with a digit:
the longest run of hexadecimal digits is read most significant digit first. -/
def strtol16 (buf : List Nat) : Nat :=
  (buf.takeWhile (fun c => isxdigit c)).foldl (fun acc c => acc * 16 + hex_value c) 0

/-- The C library's `strcmp`: zero exactly when the two strings are equal. -/
def strcmp : List Nat → List Nat → Int
  | [], [] => 0
  | [], b :: _ => 0 - (b : Int)
  | a :: _, [] => (a : Int)
  | a :: as, b :: bs => if a = b then strcmp as bs else (a : Int) - (b : Int)

/-- The C library's `strstr`: the offset of the first occurrence of `needle` in
`haystack` (offset `0` for the empty needle), or `none` for a NULL result. -/
def strstr : List Nat → List Nat → Option Nat
  | [], needle => if needle.isEmpty then some 0 else none
  | c :: rest, needle =>
    if needle.isPrefixOf (c :: rest) then some 0
    else (strstr rest needle).map (fun p => p + 1)

/-- One lowercase hexadecimal digit character as `printf`'s `%x` writes it. -/
def hex_char (n : Nat) : Nat := if n < 10 then 48 + n else 87 + n

/-- The C library's `sprintf(hex_buf, "%02x", b)` for a `uint8_t` argument: two
lowercase hexadecimal digits, high nibble first. -/
def sprintf_02x (b : Nat) : List Nat := [hex_char (b % 256 / 16), hex_char (b % 256 % 16)]

/-! ## External types: `buffer.h`, `dns.h`, `select_group.h` -/

/-- Modelled from the spec: the Byte Queue of `buffer.h`, whose implementation is
not among the sources. It is the ordered sequence of the bytes that have been
appended and not yet consumed, head first; consumed bytes are gone. -/
abbrev buffer_t := List Nat

/-- Modelled from the spec: `buffer_create`, the empty Byte Queue. -/
def buffer_create : buffer_t := []

/-- Modelled from the spec: `buffer_add_int8` appends one `uint8_t` at the tail. -/
def buffer_add_int8 (buffer : buffer_t) (data : Nat) : buffer_t := buffer ++ [data % 256]

/-- Modelled from the spec: `buffer_add_bytes` appends the given bytes at the tail. -/
def buffer_add_bytes (buffer : buffer_t) (data : List Nat) : buffer_t := buffer ++ data

/-- Modelled from the spec: `buffer_add_ntstring` appends the characters of a C
string and its terminating NUL at the tail. -/
def buffer_add_ntstring (buffer : buffer_t) (data : List Nat) : buffer_t :=
  buffer ++ data ++ [0]

/-- Modelled from the spec: `buffer_create_string_and_destroy` hands out the
bytes of the queue together with their number. -/
def buffer_create_string_and_destroy (buffer : buffer_t) : List Nat × Nat :=
  (buffer, buffer.length)

/-- Modelled from the spec: `buffer_get_remaining_bytes` reports the remaining length. -/
def buffer_get_remaining_bytes (buffer : buffer_t) : Nat := buffer.length

/-- Modelled from the spec: `buffer_consume` removes `count` bytes from the head. -/
def buffer_consume (buffer : buffer_t) (count : Nat) : buffer_t := buffer.drop count

/-- The value of `(size_t)-1`, which the callers pass for "no limit". -/
def SIZE_MAX : Nat := 2 ^ 64 - 1

/-- Modelled from the spec: `buffer_read_remaining_bytes(buffer, &length, max_bytes,
consume)` copies the bytes at the head of the queue, all of them when `max_bytes`
is `(size_t)-1` and at most `max_bytes` otherwise, reports their number and
removes them when `consume` is set. The result is the copy, the reported length
and the queue afterwards. -/
def buffer_read_remaining_bytes (buffer : buffer_t) (max_bytes : Nat) (consume : Bool) :
    List Nat × Nat × buffer_t :=
  let length :=
    if max_bytes ≠ SIZE_MAX ∧ buffer_get_remaining_bytes buffer > max_bytes then max_bytes
    else buffer_get_remaining_bytes buffer
  (buffer.take length, length, if consume then buffer_consume buffer length else buffer)

/-- The characters a `char *` denotes: those before the first NUL of the bytes it
points to. -/
def c_string (bytes : List Nat) : List Nat := bytes.takeWhile (fun c => c ≠ 0)

/-- Modelled from the spec: the response codes of `dns.h` (not among the
sources), with the values of RFC 1035. -/
def DNS_RCODE_SUCCESS : Nat := 0
/-- Modelled from the spec: the response code "format error" of `dns.h`. -/
def DNS_RCODE_FORMAT_ERROR : Nat := 1
/-- Modelled from the spec: the response code "server failure" of `dns.h`. -/
def DNS_RCODE_SERVER_FAILURE : Nat := 2
/-- Modelled from the spec: the response code "name error" of `dns.h`. -/
def DNS_RCODE_NAME_ERROR : Nat := 3
/-- Modelled from the spec: the response code "not implemented" of `dns.h`. -/
def DNS_RCODE_NOT_IMPLEMENTED : Nat := 4
/-- Modelled from the spec: the response code "refused" of `dns.h`. -/
def DNS_RCODE_REFUSED : Nat := 5
/-- Modelled from the spec: the record type TXT of `dns.h`. -/
def DNS_TYPE_TEXT : Nat := 16
/-- Modelled from the spec: the class IN of `dns.h`. -/
def DNS_CLASS_IN : Nat := 1
/-- Modelled from the spec: the opcode "standard query" of `dns.h`. -/
def DNS_OPCODE_QUERY : Nat := 0
/-- Modelled from the spec: the flag "recursion desired" of `dns.h`. -/
def DNS_FLAG_RD : Nat := 1

/-- One question of a DNS message. -/
structure question_t where
  name : List Nat
  type : Nat
  cls : Nat
  deriving DecidableEq

/-- One answer record: its record type and, for a TXT record, its text
(`answer->TEXT.text`). -/
structure answer_t where
  type : Nat
  text : List Nat
  deriving DecidableEq

/-- The parsed DNS message `dns_t` of `dns.h`, with the fields the driver uses. -/
structure dns_t where
  trn_id : Nat
  opcode : Nat
  flags : Nat
  rcode : Nat
  question_count : Nat
  questions : List question_t
  answer_count : Nat
  answers : List answer_t
  deriving DecidableEq

/-- Modelled from the spec: `dns_create`, a message with no question and no answer. -/
def dns_create (trn_id opcode flags rcode : Nat) : dns_t :=
  { trn_id := trn_id, opcode := opcode, flags := flags, rcode := rcode,
    question_count := 0, questions := [], answer_count := 0, answers := [] }

/-- Modelled from the spec: `dns_add_question` adds one question to the message. -/
def dns_add_question (dns : dns_t) (name : List Nat) (type cls : Nat) : dns_t :=
  { dns with question_count := dns.question_count + 1,
             questions := dns.questions ++ [{ name := name, type := type, cls := cls }] }

/-- The control code a select-group callback returns (`select_group.h`). -/
inductive SELECT_RESPONSE_t where
  | SELECT_OK
  | SELECT_REMOVE
  | SELECT_CLOSE_REMOVE
  deriving DecidableEq

open SELECT_RESPONSE_t

/-! ## Effects -/

/-- An argument of a `printf` call. -/
inductive printf_arg where
  | str (s : List Nat)
  | chr (c : Nat)
  | int (n : Nat)
  deriving DecidableEq

/-- A call that leaves the translated code, with its arguments. `udp_send` carries
the message whose wire form `dns_to_packet` produces. -/
inductive Event where
  | printf (format : String) (args : List printf_arg)
  | udp_create_socket (port : Nat) (host : String) (ret : Int)
  | select_group_add_socket (s : Int)
  | select_set_recv (s : Int)
  | udp_send (s : Int) (host : List Nat) (port : Nat) (dns : dns_t)
  | select_group_remove_and_close_socket (s : Int)
  | buffer_destroy
  | safe_free (object : String)
  deriving DecidableEq

/-- How a call ends. `fault` is a read outside an array and `out_of_fuel` a loop
that did not finish within the iterations granted to it. -/
inductive Termination (α : Type) where
  | returned (value : α)
  | exited (status : Nat)
  | assert_failed (expression : String)
  | fault
  | out_of_fuel
  deriving DecidableEq

/-- The driver state `dns_driver_t` of `driver_dns.h`. -/
structure dns_driver_t where
  s : Int
  domain : List Nat
  dns_host : List Nat
  dns_port : Nat
  group : Nat
  incoming_data : buffer_t
  deriving DecidableEq

/-- The outcome of running one driver function: the driver afterwards, the
external calls made, and how the call ended. -/
structure Run (α : Type) where
  driver : dns_driver_t
  trace : List Event
  result : Termination α
  deriving DecidableEq

/-! ## `driver_dns.c` -/

/-- Source `dns_driver_create`: no socket, the given domain, host, port and
group, and an empty incoming queue. -/
def dns_driver_create (domain dns_host : List Nat) (dns_port : Nat) (group : Nat) :
    dns_driver_t :=
  { s := -1, domain := domain, dns_host := dns_host, dns_port := dns_port, group := group,
    incoming_data := buffer_create }

/-- The `switch` of `recv_callback` on a response code other than success. -/
def rcode_report (rcode : Nat) : Event :=
  if rcode = DNS_RCODE_FORMAT_ERROR then .printf "DNS ERROR: RCODE_FORMAT_ERROR\n" []
  else if rcode = DNS_RCODE_SERVER_FAILURE then .printf "DNS ERROR: RCODE_SERVER_FAILURE\n" []
  else if rcode = DNS_RCODE_NAME_ERROR then .printf "DNS ERROR: RCODE_NAME_ERROR\n" []
  else if rcode = DNS_RCODE_NOT_IMPLEMENTED then .printf "DNS ERROR: RCODE_NOT_IMPLEMENTED\n" []
  else if rcode = DNS_RCODE_REFUSED then .printf "DNS ERROR: RCODE_REFUSED\n" []
  else .printf "DNS ERROR: Unknown error code (0x%04x)\n" [.int rcode]

/-- The body of the `for` loop of `recv_callback` at index `i`: the incoming
queue and the trace after validating and decoding `answer[i]`, `answer[i+1]`. -/
def recv_pair (answer : List Nat) (i : Nat) (st : buffer_t × List Event) :
    buffer_t × List Event :=
  if char_at answer i = 46 then
    st
  else if char_at answer (i + 1) = 46 then
    (st.1, st.2 ++ [.printf "WARNING: Answer contained an odd number of digits\n" []])
  else if !isxdigit (char_at answer i) then
    (st.1, st.2 ++ [.printf "WARNING: Answer contained an invalid digit: '%c'\n"
      [.chr (char_at answer i)]])
  else if !isxdigit (char_at answer (i + 1)) then
    (st.1, st.2 ++ [.printf "WARNING: Answer contained an invalid digit: '%c'\n"
      [.chr (char_at answer (i + 1))]])
  else
    let buf := [char_at answer i, char_at answer (i + 1)]
    (buffer_add_int8 st.1 (strtol16 buf), st.2)

/-- The loop `for(i = 0; answer + i < domain; i += 2)` of `recv_callback`, started
at `i`, where `domain` is the offset `strstr` returned; `none` when the granted
number of iterations is used up before the loop condition fails. -/
def recv_loop (answer : List Nat) (domain : Nat) :
    Nat → Nat → buffer_t × List Event → Option (buffer_t × List Event)
  | 0, i, st => if i < domain then none else some st
  | fuel + 1, i, st =>
    if i < domain then recv_loop answer domain fuel (i + 2) (recv_pair answer i st)
    else some st

/-- Source `recv_callback`, applied to the driver and the message that
`dns_create_from_packet` parsed from the datagram. -/
def recv_callback (driver : dns_driver_t) (dns : dns_t) : Run SELECT_RESPONSE_t :=
  if dns.rcode ≠ DNS_RCODE_SUCCESS then
    { driver := driver, trace := [rcode_report dns.rcode], result := .returned SELECT_OK }
  else if dns.question_count ≠ 1 then
    { driver := driver,
      trace := [.printf "DNS returned the wrong number of response fields.\n" []],
      result := .exited 1 }
  else if dns.answer_count ≠ 1 then
    { driver := driver,
      trace := [.printf "DNS returned the wrong number of response fields.\n" []],
      result := .exited 1 }
  else
    match dns.answers[0]? with
    | none => { driver := driver, trace := [], result := .fault }
    | some answer0 =>
      if answer0.type = DNS_TYPE_TEXT then
        let answer := answer0.text
        let received : List Event := [.printf "Received: %s\n" [.str answer]]
        if strcmp answer driver.domain = 0 then
          { driver := driver,
            trace := received ++ [.printf "WARNING: Received a 'nil' answer; ignoring\n" []],
            result := .returned SELECT_OK }
        else
          match strstr answer driver.domain with
          | none =>
            { driver := driver,
              trace := received ++ [.printf "ERROR: Answer didn't contain the domain\n" []],
              result := .returned SELECT_OK }
          | some domain =>
            match recv_loop answer domain domain 0 (driver.incoming_data, received) with
            | none => { driver := driver, trace := received, result := .out_of_fuel }
            | some st =>
              { driver := { driver with incoming_data := st.1 }, trace := st.2,
                result := .returned SELECT_OK }
      else
        { driver := driver, trace := [.printf "Unknown DNS type returned\n" []],
          result := .exited 1 }

/-- The loop of `driver_dns_send` that renders every payload byte as two
characters and adds them to the buffer. -/
def driver_dns_send_loop (buffer : buffer_t) (data : List Nat) : buffer_t :=
  data.foldl (fun buffer byte => buffer_add_bytes buffer (sprintf_02x byte)) buffer

/-- The name `driver_dns_send` encodes for a payload: `encoded_bytes` after
`buffer_create_string_and_destroy`, read as a C string. -/
def driver_dns_send_encoded (data : List Nat) : List Nat :=
  let buffer := driver_dns_send_loop buffer_create data
  let buffer := buffer_add_ntstring buffer (cstr ".skullseclabs.org")
  c_string (buffer_create_string_and_destroy buffer).1

/-- The part of `driver_dns_send` after the socket is in place: the three
assertions, the encoding, the query and its transmission. -/
def driver_dns_send_query (d : dns_driver_t) (trace : List Event) (rand : Nat)
    (data : Option (List Nat)) : Run Unit :=
  if ¬ (d.s ≠ -1) then
    { driver := d, trace := trace, result := .assert_failed "d->s != -1" }
  else
    match data with
    | none => { driver := d, trace := trace, result := .assert_failed "data" }
    | some bytes =>
      if ¬ (bytes.length > 0) then
        { driver := d, trace := trace, result := .assert_failed "length > 0" }
      else
        let encoded_bytes := driver_dns_send_encoded bytes
        let dns := dns_create (rand % 0xFFFF) DNS_OPCODE_QUERY DNS_FLAG_RD DNS_RCODE_SUCCESS
        let dns := dns_add_question dns encoded_bytes DNS_TYPE_TEXT DNS_CLASS_IN
        { driver := d, trace := trace ++ [.udp_send d.s d.dns_host d.dns_port dns],
          result := .returned () }

/-- Source `driver_dns_send`. `new_socket` is what `udp_create_socket` returns if
it is called, `rand` what `rand()` returns, and `data` the payload (`none` for a
NULL pointer), whose length is the argument `length`. -/
def driver_dns_send (d : dns_driver_t) (new_socket : Int) (rand : Nat)
    (data : Option (List Nat)) : Run Unit :=
  if d.s = -1 then
    let d1 : dns_driver_t := { d with s := new_socket }
    let created : List Event := [.udp_create_socket 0 "0.0.0.0" new_socket]
    if d1.s = -1 then
      { driver := d1,
        trace := created ++ [.printf "[[DNS]] :: couldn't create socket!\n" []],
        result := .returned () }
    else
      driver_dns_send_query d1
        (created ++ [.select_group_add_socket d1.s, .select_set_recv d1.s]) rand data
  else
    driver_dns_send_query d [] rand data

/-- Source `driver_dns_recv`: the returned pointer (`none` for NULL) and `*length`. -/
def driver_dns_recv (d : dns_driver_t) (_max_length : Nat) : Run (Option (List Nat) × Nat) :=
  if buffer_get_remaining_bytes d.incoming_data > 0 then
    let read := buffer_read_remaining_bytes d.incoming_data SIZE_MAX false
    let length := read.2.1
    { driver := { d with incoming_data := buffer_consume read.2.2 length }, trace := [],
      result := .returned (some read.1, length) }
  else
    { driver := d, trace := [], result := .returned (none, 0) }

/-- Source `driver_dns_close`. -/
def driver_dns_close (d : dns_driver_t) : Run Unit :=
  let trace : List Event := [.printf "[[UDP]] :: close()\n" []]
  if ¬ (d.s ≠ 0 ∧ d.s ≠ -1) then
    { driver := d, trace := trace, result := .assert_failed "d->s && d->s != -1" }
  else
    { driver := { d with s := -1 },
      trace := trace ++ [.select_group_remove_and_close_socket d.s],
      result := .returned () }

/-- Source `driver_dns_cleanup`. The driver object is freed at the end; the
driver of the outcome records its last contents. -/
def driver_dns_cleanup (d : dns_driver_t) : Run Unit :=
  let trace : List Event := [.printf "[[DNS]] :: cleanup()\n" []]
  let release : List Event :=
    [.buffer_destroy, .safe_free "d->domain", .safe_free "d->dns_host", .safe_free "d"]
  if d.s ≠ -1 then
    let closed := driver_dns_close d
    match closed.result with
    | .returned _ =>
      { driver := closed.driver, trace := trace ++ closed.trace ++ release,
        result := .returned () }
    | ended => { driver := closed.driver, trace := trace ++ closed.trace, result := ended }
  else
    { driver := d, trace := trace ++ release, result := .returned () }

/-! ## `driver_console.c` -/

/-- The driver state `driver_console_t` of `driver_console.h`. -/
structure driver_console_t where
  group : Nat
  is_shutdown : Bool
  outgoing_data : buffer_t
  deriving DecidableEq

/-- Source `console_stdin_recv`: the bytes read are added to the outgoing queue. -/
def console_stdin_recv (driver : driver_console_t) (data : List Nat) :
    SELECT_RESPONSE_t × driver_console_t :=
  (SELECT_OK, { driver with outgoing_data := buffer_add_bytes driver.outgoing_data data })

/-- Source `console_stdin_closed`: the shutdown flag is set. -/
def console_stdin_closed (driver : driver_console_t) : SELECT_RESPONSE_t × driver_console_t :=
  (SELECT_CLOSE_REMOVE, { driver with is_shutdown := true })

/-- Source `driver_console_get_outgoing`: `none` for a NULL result (then `*length`
is not written), else the returned bytes and `*length`; and the driver afterwards. -/
def driver_console_get_outgoing (driver : driver_console_t) (max_length : Nat) :
    Option (List Nat × Nat) × driver_console_t :=
  if driver.is_shutdown = true ∧ buffer_get_remaining_bytes driver.outgoing_data = 0 then
    (none, driver)
  else
    let read := buffer_read_remaining_bytes driver.outgoing_data max_length true
    (some (read.1, read.2.1), { driver with outgoing_data := read.2.2 })

/-! ## Sequences of calls -/

/-- One call into the DNS driver, with what the environment supplies to it. -/
inductive driver_call where
  | send (new_socket : Int) (rand : Nat) (data : Option (List Nat))
  | recv_callback (dns : dns_t)
  | recv (max_length : Nat)
  | close
  deriving DecidableEq

/-- A process that uses one DNS driver: the driver, every external call made so
far, and whether the process still runs (no `exit`, no failed assertion). -/
structure process_t where
  driver : dns_driver_t
  trace : List Event
  running : Bool
  deriving DecidableEq

/-- Whether a call returned to its caller. -/
def Termination.is_returned {α : Type} : Termination α → Bool
  | .returned _ => true
  | _ => false

/-- The process after one more call into the driver; a process that has ended
makes no call. -/
def call_driver (p : process_t) (c : driver_call) : process_t :=
  if p.running = false then p
  else
    match c with
    | .send new_socket rand data =>
      let r := driver_dns_send p.driver new_socket rand data
      { driver := r.driver, trace := p.trace ++ r.trace, running := r.result.is_returned }
    | .recv_callback dns =>
      let r := recv_callback p.driver dns
      { driver := r.driver, trace := p.trace ++ r.trace, running := r.result.is_returned }
    | .recv max_length =>
      let r := driver_dns_recv p.driver max_length
      { driver := r.driver, trace := p.trace ++ r.trace, running := r.result.is_returned }
    | .close =>
      let r := driver_dns_close p.driver
      { driver := r.driver, trace := p.trace ++ r.trace, running := r.result.is_returned }

/-- The process after a sequence of calls, started on a freshly created driver. -/
def run_calls (domain dns_host : List Nat) (dns_port group : Nat) (calls : List driver_call) :
    process_t :=
  calls.foldl call_driver
    { driver := dns_driver_create domain dns_host dns_port group, trace := [], running := true }

/-- Successive `driver_console_get_outgoing` calls with the given `max_length`
values: what each call returns, in order. -/
def get_outgoing_calls : driver_console_t → List Nat → List (Option (List Nat × Nat))
  | _, [] => []
  | driver, max_length :: rest =>
    (driver_console_get_outgoing driver max_length).1 ::
      get_outgoing_calls (driver_console_get_outgoing driver max_length).2 rest

/-- The values of `i` at which the body of the loop of `recv_callback` runs:
`for(i = 0; answer + i < domain; i += 2)`, started at `i`. -/
def recv_loop_indices (domain : Nat) : Nat → Nat → List Nat
  | 0, _ => []
  | fuel + 1, i => if i < domain then i :: recv_loop_indices domain fuel (i + 2) else []

/-- The indices of `answer` that the body of the loop reads at `i`: `answer[i]`,
and `answer[i+1]` unless the first test `answer[i] == '.'` already succeeded. -/
def recv_pair_reads (answer : List Nat) (i : Nat) : List Nat :=
  if char_at answer i = 46 then [i] else [i, i + 1]

/-! ## Specification-side definitions -/

/-- The lowercase hexadecimal digit of a nibble, read off the digit table. -/
def lower_hex_digit (n : Nat) : Nat := (cstr "0123456789abcdef").getD n 0

/-- The byte that the aligned pair `(P[2k], P[2k+1])` contributes: its value when
both characters are hexadecimal digits, nothing otherwise. -/
def pair_byte (P : List Nat) (k : Nat) : Option Nat :=
  if isxdigit (P.getD (2 * k) 0) && isxdigit (P.getD (2 * k + 1) 0) then
    some (hex_value (P.getD (2 * k) 0) * 16 + hex_value (P.getD (2 * k + 1) 0))
  else none

/-- The bytes of the aligned pairs of `P` that lie wholly inside `P`
(`2k+1 < |P|`), in increasing `k`. -/
def decoded_pairs (P : List Nat) : List Nat :=
  (List.range (P.length / 2)).filterMap (pair_byte P)

/-- Whether an external call transmits a datagram. -/
def is_udp_send : Event → Bool
  | .udp_send _ _ _ _ => true
  | _ => false

/-- Whether an external call is a `printf`. -/
def is_printf : Event → Bool
  | .printf _ _ => true
  | _ => false

/-- Whether an external call registers a socket with the select group. -/
def is_add_socket : Event → Bool
  | .select_group_add_socket _ => true
  | _ => false

/-- Whether an external call is `udp_create_socket`. -/
def is_create_call : Event → Bool
  | .udp_create_socket _ _ _ => true
  | _ => false

/-- The number of sockets that `udp_create_socket` created in a trace. -/
def sockets_created (trace : List Event) : Nat :=
  trace.countP (fun ev =>
    match ev with
    | .udp_create_socket _ _ ret => decide (ret ≠ -1)
    | _ => false)

/-- The number of sockets that were removed from the select group and closed. -/
def sockets_closed (trace : List Event) : Nat :=
  trace.countP (fun ev =>
    match ev with
    | .select_group_remove_and_close_socket _ => true
    | _ => false)

/-- The sockets deregistered in a trace, in order. -/
def deregistered (trace : List Event) : List Int :=
  trace.filterMap (fun ev =>
    match ev with
    | .select_group_remove_and_close_socket s => some s
    | _ => none)

/-- The bytes of the chunks that a sequence of `get_outgoing` results returned,
concatenated in order; an end-of-stream result contributes nothing. -/
def chunks_concat : List (Option (List Nat × Nat)) → List Nat
  | [] => []
  | none :: rest => chunks_concat rest
  | some chunk :: rest => chunk.1 ++ chunks_concat rest

/-- The bytes `recv_callback` decodes from a response for a driver of the given
domain: what it leaves in an incoming queue that was empty. -/
def decoded_bytes (domain : List Nat) (dns : dns_t) : List Nat :=
  (recv_callback (dns_driver_create domain [] 0 0) dns).driver.incoming_data

/-! ## Concrete inputs -/

/-- The driver `dns_driver_create(".tunnel.test", "8.8.8.8", 53, group)`. -/
def tunnel_driver : dns_driver_t :=
  dns_driver_create (cstr ".tunnel.test") (cstr "8.8.8.8") 53 0

/-- A success response with one question and one TXT answer of the given text. -/
def txt_response (text : List Nat) : dns_t :=
  { trn_id := 0x1234, opcode := DNS_OPCODE_QUERY, flags := DNS_FLAG_RD,
    rcode := DNS_RCODE_SUCCESS, question_count := 1,
    questions := [{ name := text, type := DNS_TYPE_TEXT, cls := DNS_CLASS_IN }],
    answer_count := 1, answers := [{ type := DNS_TYPE_TEXT, text := text }] }

/-- A console driver whose input was shut down with `queue` still staged. -/
def console_driver (queue : List Nat) : driver_console_t :=
  (console_stdin_closed { group := 0, is_shutdown := false, outgoing_data := queue }).2

/-! ## Lemmas on the library helpers -/

theorem isxdigit_hex_char (n : Nat) (h : n < 16) : isxdigit (hex_char n) = true := by
  interval_cases n <;> decide

theorem hex_value_hex_char (n : Nat) (h : n < 16) : hex_value (hex_char n) = n := by
  interval_cases n <;> decide

theorem hex_char_eq_lower_hex_digit (n : Nat) (h : n < 16) :
    hex_char n = lower_hex_digit n := by
  interval_cases n <;> decide

theorem isxdigit_ne_dot (c : Nat) (h : isxdigit c = true) : c ≠ 46 := by
  intro hc
  subst hc
  revert h
  decide

theorem isxdigit_ne_nul (c : Nat) (h : isxdigit c = true) : c ≠ 0 := by
  intro hc
  subst hc
  revert h
  decide

theorem hex_value_lt (c : Nat) (h : isxdigit c = true) : hex_value c < 16 := by
  unfold isxdigit at h
  unfold hex_value
  simp only [Bool.or_eq_true, Bool.and_eq_true, decide_eq_true_eq] at h
  split_ifs <;> omega

theorem strtol16_pair (c0 c1 : Nat) (h0 : isxdigit c0 = true) (h1 : isxdigit c1 = true) :
    strtol16 [c0, c1] = hex_value c0 * 16 + hex_value c1 := by
  simp [strtol16, List.takeWhile, h0, h1]

theorem strcmp_self (a : List Nat) : strcmp a a = 0 := by
  induction a with
  | nil => rfl
  | cons c rest ih => simp [strcmp, ih]

theorem strcmp_eq_zero (a b : List Nat) (ha : ∀ c ∈ a, c ≠ 0) (hb : ∀ c ∈ b, c ≠ 0)
    (h : strcmp a b = 0) : a = b := by
  induction a generalizing b with
  | nil =>
    cases b with
    | nil => rfl
    | cons y ys =>
      have hy : y ≠ 0 := hb y (List.mem_cons_self _ _)
      simp [strcmp] at h
      omega
  | cons x xs ih =>
    cases b with
    | nil =>
      have hx : x ≠ 0 := ha x (List.mem_cons_self _ _)
      simp [strcmp] at h
      omega
    | cons y ys =>
      simp only [strcmp] at h
      by_cases hxy : x = y
      · simp only [hxy, if_true] at h
        rw [hxy, ih ys (fun c hc => ha c (List.mem_cons_of_mem _ hc))
          (fun c hc => hb c (List.mem_cons_of_mem _ hc)) h]
      · simp only [hxy, if_false] at h
        omega

theorem strstr_append (P D : List Nat)
    (hfirst : ∀ j, j < P.length → D.isPrefixOf ((P ++ D).drop j) = false) :
    strstr (P ++ D) D = some P.length := by
  induction P with
  | nil =>
    cases D with
    | nil => rfl
    | cons c rest => simp [strstr]
  | cons c rest ih =>
    have h0 := hfirst 0 (by simp)
    have hrest : ∀ j, j < rest.length → D.isPrefixOf ((rest ++ D).drop j) = false := by
      intro j hj
      have := hfirst (j + 1) (by simp; omega)
      simpa using this
    simp only [List.drop_zero, List.cons_append] at h0
    simp [strstr, h0, ih hrest]

/-! ## Lemmas on the decoding loop of `recv_callback` -/

theorem recv_pair_fst (answer : List Nat) (i : Nat) (st : buffer_t × List Event) :
    (recv_pair answer i st).1 = st.1 ++
      (if isxdigit (char_at answer i) && isxdigit (char_at answer (i + 1)) then
        [hex_value (char_at answer i) * 16 + hex_value (char_at answer (i + 1))]
      else []) := by
  have hdot : isxdigit 46 = false := by decide
  unfold recv_pair
  by_cases h0 : char_at answer i = 46
  · simp [h0, hdot]
  · by_cases h1 : char_at answer (i + 1) = 46
    · simp [h0, h1, hdot]
    · by_cases x0 : isxdigit (char_at answer i) = true
      · by_cases x1 : isxdigit (char_at answer (i + 1)) = true
        · have hlt0 := hex_value_lt _ x0
          have hlt1 := hex_value_lt _ x1
          simp only [h0, h1, x0, x1, if_false, Bool.not_true, Bool.and_self, if_true,
            buffer_add_int8, strtol16_pair _ _ x0 x1, Bool.false_eq_true]
          congr 2
          omega
        · simp [h0, h1, x0, x1]
      · simp [h0, h1, x0]

theorem recv_loop_isSome (answer : List Nat) (domain : Nat) (fuel i : Nat)
    (st : buffer_t × List Event) (h : domain ≤ i + 2 * fuel) :
    (recv_loop answer domain fuel i st).isSome = true := by
  induction fuel generalizing i st with
  | zero =>
    have : ¬ i < domain := by omega
    simp [recv_loop, this]
  | succ n ih =>
    unfold recv_loop
    split_ifs with hlt
    · exact ih _ _ (by omega)
    · rfl

theorem recv_loop_fst (P D' : List Nat) (fuel k : Nat) (st : buffer_t × List Event)
    (h : P.length ≤ 2 * k + 2 * fuel) :
    (recv_loop (P ++ 46 :: D') P.length fuel (2 * k) st).map Prod.fst =
      some (st.1 ++ (List.range' k (P.length / 2 - k)).filterMap (pair_byte P)) := by
  induction fuel generalizing k st with
  | zero =>
    have hlt : ¬ 2 * k < P.length := by omega
    have hz : P.length / 2 - k = 0 := by omega
    simp [recv_loop, hlt, hz]
  | succ n ih =>
    unfold recv_loop
    split_ifs with hlt
    · have hstep := ih (k + 1) (recv_pair (P ++ 46 :: D') (2 * k) st) (by omega)
      have h2 : 2 * (k + 1) = 2 * k + 2 := by ring
      rw [h2] at hstep
      rw [hstep, recv_pair_fst]
      have hc0 : char_at (P ++ 46 :: D') (2 * k) = P.getD (2 * k) 0 := by
        simp [char_at, List.getD_eq_getElem?_getD, List.getElem?_append_left hlt]
      by_cases hin : 2 * k + 1 < P.length
      · have hc1 : char_at (P ++ 46 :: D') (2 * k + 1) = P.getD (2 * k + 1) 0 := by
          simp [char_at, List.getD_eq_getElem?_getD, List.getElem?_append_left hin]
        have hk : P.length / 2 - k = (P.length / 2 - (k + 1)) + 1 := by omega
        rw [hc0, hc1, hk, List.range'_succ, List.filterMap_cons]
        unfold pair_byte
        split_ifs <;> simp
      · have hc1 : char_at (P ++ 46 :: D') (2 * k + 1) = 46 := by
          have hlen : 2 * k + 1 = P.length := by omega
          rw [hlen, char_at, List.getD_eq_getElem?_getD,
            List.getElem?_append_right (Nat.le_refl _)]
          simp
        have hdot : isxdigit 46 = false := by decide
        have hz : P.length / 2 - k = 0 := by omega
        have hz1 : P.length / 2 - (k + 1) = 0 := by omega
        simp [hc1, hdot, hz, hz1]
    · have hz : P.length / 2 - k = 0 := by omega
      simp [hz]

theorem decoded_pairs_cons_cons (c0 c1 : Nat) (rest : List Nat) :
    decoded_pairs (c0 :: c1 :: rest) =
      (if isxdigit c0 && isxdigit c1 then [hex_value c0 * 16 + hex_value c1] else []) ++
        decoded_pairs rest := by
  have hlen : (c0 :: c1 :: rest).length / 2 = rest.length / 2 + 1 := by
    simp only [List.length_cons]
    omega
  have hshift : ∀ k, pair_byte (c0 :: c1 :: rest) (k + 1) = pair_byte rest k := by
    intro k
    have h2 : 2 * (k + 1) = 2 * k + 1 + 1 := by ring
    have h3 : 2 * (k + 1) + 1 = 2 * k + 1 + 1 + 1 := by ring
    simp only [pair_byte, h2, h3, List.getD_cons_succ]
  unfold decoded_pairs
  rw [hlen, List.range_succ_eq_map, List.filterMap_cons, List.filterMap_map]
  have hcomp : (pair_byte (c0 :: c1 :: rest) ∘ Nat.succ) = pair_byte rest := by
    funext k
    exact hshift k
  rw [hcomp]
  simp only [pair_byte, Nat.mul_zero, List.getD_cons_zero, Nat.zero_add, List.getD_cons_succ]
  split_ifs <;> simp

/-! ## Lemmas on `recv_callback` and `driver_dns_send` -/

theorem recv_callback_decode (d : dns_driver_t) (dns : dns_t) (P D' : List Nat)
    (hdom : d.domain = 46 :: D') (hr : dns.rcode = DNS_RCODE_SUCCESS)
    (hqc : dns.question_count = 1) (hac : dns.answer_count = 1)
    (hans : dns.answers = [{ type := DNS_TYPE_TEXT, text := P ++ d.domain }])
    (hne : strcmp (P ++ d.domain) d.domain ≠ 0)
    (hfirst : ∀ j, j < P.length → d.domain.isPrefixOf ((P ++ d.domain).drop j) = false) :
    (recv_callback d dns).result = .returned SELECT_OK ∧
      (recv_callback d dns).driver =
        { d with incoming_data := d.incoming_data ++ decoded_pairs P } := by
  have hs := strstr_append P d.domain hfirst
  have hl := recv_loop_fst P D' P.length 0
    (d.incoming_data, [.printf "Received: %s\n" [.str (P ++ d.domain)]]) (by omega)
  rw [← hdom] at hl
  simp only [Nat.mul_zero, Nat.sub_zero, ← List.range_eq_range'] at hl
  unfold recv_callback
  simp only [hr, hqc, hac, hans, ne_eq, not_true_eq_false, if_false, List.getElem?_cons_zero,
    if_true, hne, hs]
  cases hrun : recv_loop (P ++ d.domain) P.length P.length 0
      (d.incoming_data, [.printf "Received: %s\n" [.str (P ++ d.domain)]]) with
  | none => simp [hrun] at hl
  | some st =>
    simp only [hrun, Option.map_some', Option.some.injEq] at hl
    simp [hl, decoded_pairs]

theorem send_loop_append (buffer : buffer_t) (data : List Nat) :
    driver_dns_send_loop buffer data = buffer ++ driver_dns_send_loop buffer_create data := by
  induction data generalizing buffer with
  | nil => simp [driver_dns_send_loop, buffer_create]
  | cons b rest ih =>
    have h1 : driver_dns_send_loop buffer (b :: rest) =
        driver_dns_send_loop (buffer ++ sprintf_02x b) rest := rfl
    have h2 : driver_dns_send_loop buffer_create (b :: rest) =
        driver_dns_send_loop ([] ++ sprintf_02x b) rest := rfl
    rw [h1, h2, ih (buffer ++ sprintf_02x b), ih ([] ++ sprintf_02x b)]
    simp

theorem send_loop_cons (b : Nat) (rest : List Nat) :
    driver_dns_send_loop buffer_create (b :: rest) =
      hex_char (b % 256 / 16) :: hex_char (b % 256 % 16) ::
        driver_dns_send_loop buffer_create rest := by
  have h : driver_dns_send_loop buffer_create (b :: rest) =
      driver_dns_send_loop ([] ++ sprintf_02x b) rest := rfl
  rw [h, send_loop_append]
  simp [sprintf_02x]

theorem send_loop_length (data : List Nat) :
    (driver_dns_send_loop buffer_create data).length = 2 * data.length := by
  induction data with
  | nil => rfl
  | cons b rest ih =>
    rw [send_loop_cons]
    simp only [List.length_cons, ih]
    omega

theorem send_loop_isxdigit (data : List Nat) :
    ∀ c ∈ driver_dns_send_loop buffer_create data, isxdigit c = true := by
  induction data with
  | nil =>
    intro c hc
    simp [driver_dns_send_loop, buffer_create] at hc
  | cons b rest ih =>
    intro c hc
    rw [send_loop_cons] at hc
    simp only [List.mem_cons] at hc
    rcases hc with hc | hc | hc
    · rw [hc]
      exact isxdigit_hex_char _ (by omega)
    · rw [hc]
      exact isxdigit_hex_char _ (by omega)
    · exact ih c hc

theorem send_loop_getD (data : List Nat) (k : Nat) (hk : k < data.length) :
    (driver_dns_send_loop buffer_create data).getD (2 * k) 0 =
        hex_char (data.getD k 0 % 256 / 16) ∧
      (driver_dns_send_loop buffer_create data).getD (2 * k + 1) 0 =
        hex_char (data.getD k 0 % 256 % 16) := by
  induction data generalizing k with
  | nil => simp at hk
  | cons b rest ih =>
    rw [send_loop_cons]
    cases k with
    | zero => simp
    | succ j =>
      have hj : j < rest.length := by simpa using hk
      have h2 : 2 * (j + 1) = 2 * j + 1 + 1 := by ring
      rw [h2]
      simpa using ih j hj

theorem decoded_pairs_send_loop (data : List Nat) :
    decoded_pairs (driver_dns_send_loop buffer_create data) = data.map (fun b => b % 256) := by
  induction data with
  | nil => rfl
  | cons b rest ih =>
    have h1 : b % 256 / 16 < 16 := by omega
    have h2 : b % 256 % 16 < 16 := by omega
    rw [send_loop_cons, decoded_pairs_cons_cons, ih, isxdigit_hex_char _ h1,
      isxdigit_hex_char _ h2, hex_value_hex_char _ h1, hex_value_hex_char _ h2]
    simp only [Bool.and_self, if_true, List.map_cons, List.singleton_append, List.cons.injEq,
      and_true]
    omega

theorem send_encoded_eq (data : List Nat) :
    driver_dns_send_encoded data =
      driver_dns_send_loop buffer_create data ++ cstr ".skullseclabs.org" := by
  have hhex : ∀ c ∈ driver_dns_send_loop buffer_create data,
      (fun c : Nat => decide (c ≠ 0)) c = true := by
    intro c hc
    simpa using isxdigit_ne_nul c (send_loop_isxdigit data c hc)
  have hsuffix : List.takeWhile (fun c : Nat => decide (c ≠ 0))
      (cstr ".skullseclabs.org" ++ [0]) = cstr ".skullseclabs.org" := by decide
  unfold driver_dns_send_encoded c_string buffer_create_string_and_destroy buffer_add_ntstring
  simp only [List.append_assoc]
  rw [List.takeWhile_append_of_pos hhex, hsuffix]

theorem no_dot_no_domain (P D' : List Nat) (hP : ∀ c ∈ P, c ≠ 46) :
    ∀ j, j < P.length → (46 :: D').isPrefixOf ((P ++ 46 :: D').drop j) = false := by
  intro j hj
  have hne : P[j] ≠ 46 := hP _ (List.getElem_mem hj)
  rw [List.drop_append_of_le_length (Nat.le_of_lt hj), List.drop_eq_getElem_cons hj]
  simp [List.isPrefixOf, Ne.symm hne]

theorem recv_callback_text_returns (d : dns_driver_t) (dns : dns_t) (a : answer_t)
    (hr : dns.rcode = DNS_RCODE_SUCCESS) (hqc : dns.question_count = 1)
    (hac : dns.answer_count = 1) (hans : dns.answers[0]? = some a)
    (htype : a.type = DNS_TYPE_TEXT) :
    (recv_callback d dns).result = .returned SELECT_OK := by
  unfold recv_callback
  simp only [hr, hqc, hac, hans, htype, ne_eq, not_true_eq_false, if_false, if_true]
  split_ifs with hnil
  · rfl
  · cases hs : strstr a.text d.domain with
    | none => rfl
    | some p =>
      have hsome := recv_loop_isSome a.text p p 0
        (d.incoming_data, [.printf "Received: %s\n" [.str a.text]]) (by omega)
      cases hl : recv_loop a.text p p 0
          (d.incoming_data, [.printf "Received: %s\n" [.str a.text]]) with
      | none => simp [hl] at hsome
      | some st => simp only [hl]

theorem recv_callback_type_exits (d : dns_driver_t) (dns : dns_t) (a : answer_t)
    (hr : dns.rcode = DNS_RCODE_SUCCESS) (hqc : dns.question_count = 1)
    (hac : dns.answer_count = 1) (hans : dns.answers[0]? = some a)
    (htype : a.type ≠ DNS_TYPE_TEXT) :
    (recv_callback d dns).result = .exited 1 := by
  unfold recv_callback
  simp [hr, hqc, hac, hans, htype]

theorem send_query_empty (d : dns_driver_t) (trace : List Event) (rand : Nat)
    (data : Option (List Nat)) (hdata : data = none ∨ data = some []) :
    (∃ e, (driver_dns_send_query d trace rand data).result = .assert_failed e) ∧
      (driver_dns_send_query d trace rand data).trace = trace := by
  unfold driver_dns_send_query
  rcases hdata with h | h
  · subst h
    split_ifs <;> simp
  · subst h
    split_ifs <;> simp

theorem send_query_shape (d : dns_driver_t) (trace : List Event) (rand : Nat)
    (data : Option (List Nat)) :
    (driver_dns_send_query d trace rand data).driver = d ∧
      ((driver_dns_send_query d trace rand data).trace = trace ∨
        ∃ q, (driver_dns_send_query d trace rand data).trace =
          trace ++ [.udp_send d.s d.dns_host d.dns_port q]) := by
  by_cases h1 : d.s = -1
  · simp [driver_dns_send_query, h1]
  · cases data with
    | none => simp [driver_dns_send_query, h1]
    | some bytes =>
      by_cases h2 : bytes.length > 0
      · refine ⟨by simp [driver_dns_send_query, h1, h2], Or.inr
          ⟨dns_add_question
            (dns_create (rand % 0xFFFF) DNS_OPCODE_QUERY DNS_FLAG_RD DNS_RCODE_SUCCESS)
            (driver_dns_send_encoded bytes) DNS_TYPE_TEXT DNS_CLASS_IN, ?_⟩⟩
        simp only [driver_dns_send_query, h1, h2, ne_eq, not_false_eq_true, not_true_eq_false,
          if_false]
      · simp [driver_dns_send_query, h1, h2]

/-! ## Lemmas on the external calls of the driver functions -/

theorem printf_no_socket (trace : List Event) (h : ∀ ev ∈ trace, is_printf ev = true) :
    sockets_created trace = 0 ∧ sockets_closed trace = 0 ∧ deregistered trace = [] := by
  induction trace with
  | nil => exact ⟨rfl, rfl, rfl⟩
  | cons ev rest ih =>
    obtain ⟨h1, h2, h3⟩ := ih (fun e he => h e (List.mem_cons_of_mem _ he))
    have hev := h ev (List.mem_cons_self _ _)
    cases ev with
    | printf format args =>
      unfold sockets_created sockets_closed deregistered at *
      refine ⟨?_, ?_, ?_⟩
      · rw [List.countP_cons_of_neg _ _ (by simp)]
        exact h1
      · rw [List.countP_cons_of_neg _ _ (by simp)]
        exact h2
      · rw [List.filterMap_cons_none rfl]
        exact h3
    | _ => cases hev

theorem recv_pair_trace (answer : List Nat) (i : Nat) (st : buffer_t × List Event) :
    ∃ extra, (recv_pair answer i st).2 = st.2 ++ extra ∧ ∀ ev ∈ extra, is_printf ev = true := by
  unfold recv_pair
  split_ifs
  · exact ⟨[], by simp, by simp⟩
  · exact ⟨_, rfl, by simp [is_printf]⟩
  · exact ⟨_, rfl, by simp [is_printf]⟩
  · exact ⟨_, rfl, by simp [is_printf]⟩
  · exact ⟨[], by simp, by simp⟩

theorem recv_loop_trace (answer : List Nat) (domain fuel i : Nat)
    (st out : buffer_t × List Event) (h : recv_loop answer domain fuel i st = some out) :
    ∃ extra, out.2 = st.2 ++ extra ∧ ∀ ev ∈ extra, is_printf ev = true := by
  induction fuel generalizing i st with
  | zero =>
    unfold recv_loop at h
    split_ifs at h
    cases h
    exact ⟨[], by simp, by simp⟩
  | succ n ih =>
    unfold recv_loop at h
    split_ifs at h
    · obtain ⟨e1, h1, hp1⟩ := recv_pair_trace answer i st
      obtain ⟨e2, h2, hp2⟩ := ih _ _ h
      refine ⟨e1 ++ e2, by rw [h2, h1, List.append_assoc], ?_⟩
      intro ev hev
      rcases List.mem_append.mp hev with hm | hm
      · exact hp1 ev hm
      · exact hp2 ev hm
    · cases h
      exact ⟨[], by simp, by simp⟩

theorem recv_callback_effects (d : dns_driver_t) (dns : dns_t) :
    (recv_callback d dns).driver =
        { d with incoming_data := (recv_callback d dns).driver.incoming_data } ∧
      ∀ ev ∈ (recv_callback d dns).trace, is_printf ev = true := by
  unfold recv_callback
  split_ifs with h1 h2 h3
  · refine ⟨rfl, ?_⟩
    intro ev hev
    simp only [List.mem_singleton] at hev
    subst hev
    unfold rcode_report
    split_ifs <;> rfl
  · exact ⟨rfl, by simp [is_printf]⟩
  · exact ⟨rfl, by simp [is_printf]⟩
  · cases h0 : dns.answers[0]? with
    | none => exact ⟨rfl, by simp⟩
    | some a =>
      simp only
      split_ifs with h4 h5
      · exact ⟨rfl, by simp [is_printf]⟩
      · cases hs : strstr a.text d.domain with
        | none => exact ⟨rfl, by simp [is_printf]⟩
        | some p =>
          simp only
          cases hl : recv_loop a.text p p 0
              (d.incoming_data, [.printf "Received: %s\n" [.str a.text]]) with
          | none => exact ⟨rfl, by simp [is_printf]⟩
          | some out =>
            refine ⟨rfl, ?_⟩
            obtain ⟨extra, hx, hp⟩ := recv_loop_trace _ _ _ _ _ _ hl
            simp only [hx]
            intro ev hev
            rcases List.mem_append.mp hev with hm | hm
            · simp only [List.mem_singleton] at hm
              subst hm
              rfl
            · exact hp ev hm
      · exact ⟨rfl, by simp [is_printf]⟩

theorem send_sockets (d : dns_driver_t) (new_socket : Int) (rand : Nat)
    (data : Option (List Nat)) :
    (driver_dns_send d new_socket rand data).driver.s =
        (if d.s = -1 then new_socket else d.s) ∧
      sockets_created (driver_dns_send d new_socket rand data).trace =
        (if d.s = -1 ∧ new_socket ≠ -1 then 1 else 0) ∧
      sockets_closed (driver_dns_send d new_socket rand data).trace = 0 ∧
      (driver_dns_send d new_socket rand data).trace.countP is_create_call =
        (if d.s = -1 then 1 else 0) := by
  by_cases hs : d.s = -1
  · by_cases hn : new_socket = -1
    · simp [driver_dns_send, hs, hn, sockets_created, sockets_closed, is_create_call]
    · have hsend : driver_dns_send d new_socket rand data =
          driver_dns_send_query { d with s := new_socket }
            ([.udp_create_socket 0 "0.0.0.0" new_socket] ++
              [.select_group_add_socket new_socket, .select_set_recv new_socket])
            rand data := by
        simp [driver_dns_send, hs, hn]
      have hq := send_query_shape { d with s := new_socket }
        ([.udp_create_socket 0 "0.0.0.0" new_socket] ++
          [.select_group_add_socket new_socket, .select_set_recv new_socket]) rand data
      rw [hsend, hq.1]
      rcases hq.2 with h | ⟨q, h⟩ <;> rw [h] <;>
        simp [hs, hn, sockets_created, sockets_closed, is_create_call]
  · have hsend : driver_dns_send d new_socket rand data =
        driver_dns_send_query d [] rand data := by
      simp [driver_dns_send, hs]
    have hq := send_query_shape d [] rand data
    rw [hsend, hq.1]
    rcases hq.2 with h | ⟨q, h⟩ <;> rw [h] <;>
      simp [hs, sockets_created, sockets_closed, is_create_call]

theorem close_sockets (d : dns_driver_t) :
    (d.s ≠ 0 ∧ d.s ≠ -1 →
      driver_dns_close d =
        { driver := { d with s := -1 },
          trace := [.printf "[[UDP]] :: close()\n" [],
            .select_group_remove_and_close_socket d.s],
          result := .returned () }) ∧
      (¬ (d.s ≠ 0 ∧ d.s ≠ -1) →
        driver_dns_close d =
          { driver := d, trace := [.printf "[[UDP]] :: close()\n" []],
            result := .assert_failed "d->s && d->s != -1" }) := by
  constructor
  · intro h
    simp [driver_dns_close, h]
  · intro h
    simp only [driver_dns_close, h, not_false_eq_true, if_true]

theorem sockets_created_append (a b : List Event) :
    sockets_created (a ++ b) = sockets_created a + sockets_created b := by
  simp [sockets_created, List.countP_append]

theorem sockets_closed_append (a b : List Event) :
    sockets_closed (a ++ b) = sockets_closed a + sockets_closed b := by
  simp [sockets_closed, List.countP_append]

theorem call_driver_balance (p : process_t) (c : driver_call)
    (h : sockets_created p.trace =
      sockets_closed p.trace + (if p.driver.s = -1 then 0 else 1)) :
    sockets_created (call_driver p c).trace =
      sockets_closed (call_driver p c).trace +
        (if (call_driver p c).driver.s = -1 then 0 else 1) := by
  by_cases hrun : p.running = false
  · have hcall : call_driver p c = p := by simp [call_driver, hrun]
    rw [hcall]
    exact h
  · cases c with
    | send new_socket rand data =>
      have hcall : call_driver p (.send new_socket rand data) =
          { driver := (driver_dns_send p.driver new_socket rand data).driver,
            trace := p.trace ++ (driver_dns_send p.driver new_socket rand data).trace,
            running := (driver_dns_send p.driver new_socket rand data).result.is_returned } := by
        simp [call_driver, hrun]
      obtain ⟨h1, h2, h3, _⟩ := send_sockets p.driver new_socket rand data
      rw [hcall]
      show sockets_created (p.trace ++ (driver_dns_send p.driver new_socket rand data).trace) =
        sockets_closed (p.trace ++ (driver_dns_send p.driver new_socket rand data).trace) +
          (if (driver_dns_send p.driver new_socket rand data).driver.s = -1 then 0 else 1)
      rw [sockets_created_append, sockets_closed_append, h1, h2, h3]
      by_cases hs : p.driver.s = -1
      · by_cases hn : new_socket = -1
        · simp only [hs, hn, if_true] at h ⊢
          simpa using h
        · simp only [hs, hn, if_true, if_false, ne_eq, not_false_eq_true, and_self] at h ⊢
          omega
      · simp only [hs, if_false, false_and] at h ⊢
        omega
    | recv_callback dns =>
      have hcall : call_driver p (.recv_callback dns) =
          { driver := (recv_callback p.driver dns).driver,
            trace := p.trace ++ (recv_callback p.driver dns).trace,
            running := (recv_callback p.driver dns).result.is_returned } := by
        simp [call_driver, hrun]
      obtain ⟨hd, ht⟩ := recv_callback_effects p.driver dns
      obtain ⟨hc, hl, _⟩ := printf_no_socket _ ht
      have hsock : (recv_callback p.driver dns).driver.s = p.driver.s := by rw [hd]
      rw [hcall]
      show sockets_created (p.trace ++ (recv_callback p.driver dns).trace) =
        sockets_closed (p.trace ++ (recv_callback p.driver dns).trace) +
          (if (recv_callback p.driver dns).driver.s = -1 then 0 else 1)
      rw [sockets_created_append, sockets_closed_append, hc, hl, hsock]
      exact h
    | recv max_length =>
      have hsock : (driver_dns_recv p.driver max_length).driver.s = p.driver.s := by
        unfold driver_dns_recv
        split_ifs <;> rfl
      have htrace : (driver_dns_recv p.driver max_length).trace = [] := by
        unfold driver_dns_recv
        split_ifs <;> rfl
      have hcall : call_driver p (.recv max_length) =
          { driver := (driver_dns_recv p.driver max_length).driver,
            trace := p.trace ++ (driver_dns_recv p.driver max_length).trace,
            running := (driver_dns_recv p.driver max_length).result.is_returned } := by
        simp [call_driver, hrun]
      rw [hcall]
      show sockets_created (p.trace ++ (driver_dns_recv p.driver max_length).trace) =
        sockets_closed (p.trace ++ (driver_dns_recv p.driver max_length).trace) +
          (if (driver_dns_recv p.driver max_length).driver.s = -1 then 0 else 1)
      rw [htrace, hsock, List.append_nil]
      exact h
    | close =>
      have hcall : call_driver p .close =
          { driver := (driver_dns_close p.driver).driver,
            trace := p.trace ++ (driver_dns_close p.driver).trace,
            running := (driver_dns_close p.driver).result.is_returned } := by
        simp [call_driver, hrun]
      rw [hcall]
      show sockets_created (p.trace ++ (driver_dns_close p.driver).trace) =
        sockets_closed (p.trace ++ (driver_dns_close p.driver).trace) +
          (if (driver_dns_close p.driver).driver.s = -1 then 0 else 1)
      rw [sockets_created_append, sockets_closed_append]
      by_cases hopen : p.driver.s ≠ 0 ∧ p.driver.s ≠ -1
      · rw [(close_sockets p.driver).1 hopen]
        have hne : ¬ p.driver.s = -1 := hopen.2
        have hc : sockets_created [Event.printf "[[UDP]] :: close()\n" [],
            Event.select_group_remove_and_close_socket p.driver.s] = 0 := rfl
        have hl : sockets_closed [Event.printf "[[UDP]] :: close()\n" [],
            Event.select_group_remove_and_close_socket p.driver.s] = 1 := rfl
        simp only [hne, if_false] at h
        simp only [hc, hl, if_true]
        omega
      · rw [(close_sockets p.driver).2 hopen]
        have hc : sockets_created [Event.printf "[[UDP]] :: close()\n" []] = 0 := rfl
        have hl : sockets_closed [Event.printf "[[UDP]] :: close()\n" []] = 0 := rfl
        simp only [hc, hl]
        exact h

theorem foldl_call_driver_balance (calls : List driver_call) (p : process_t)
    (h : sockets_created p.trace =
      sockets_closed p.trace + (if p.driver.s = -1 then 0 else 1)) :
    sockets_created (calls.foldl call_driver p).trace =
      sockets_closed (calls.foldl call_driver p).trace +
        (if (calls.foldl call_driver p).driver.s = -1 then 0 else 1) := by
  induction calls generalizing p with
  | nil => exact h
  | cons c rest ih => exact ih _ (call_driver_balance p c h)

/-! ## Lemmas on the console driver -/

theorem get_outgoing_eos (driver : driver_console_t) (max_length : Nat)
    (h : driver.is_shutdown = true ∧ driver.outgoing_data = []) :
    driver_console_get_outgoing driver max_length = (none, driver) := by
  simp [driver_console_get_outgoing, buffer_get_remaining_bytes, h.1, h.2]

theorem get_outgoing_data (driver : driver_console_t) (max_length : Nat)
    (h : ¬ (driver.is_shutdown = true ∧ driver.outgoing_data = [])) :
    ∃ n, driver_console_get_outgoing driver max_length =
      (some (driver.outgoing_data.take n, n),
        { driver with outgoing_data := driver.outgoing_data.drop n }) ∧
      (driver.outgoing_data.length ≤ SIZE_MAX → n = min max_length driver.outgoing_data.length) := by
  have hcond : ¬ (driver.is_shutdown = true ∧ driver.outgoing_data.length = 0) := by
    intro hc
    exact h ⟨hc.1, List.length_eq_zero.mp hc.2⟩
  refine ⟨if max_length ≠ SIZE_MAX ∧ driver.outgoing_data.length > max_length then max_length
    else driver.outgoing_data.length, ?_, ?_⟩
  · simp only [driver_console_get_outgoing, buffer_get_remaining_bytes, hcond, if_false,
      buffer_read_remaining_bytes, buffer_consume, if_true]
  · intro hsize
    split_ifs with hcap
    · omega
    · by_cases hmax : max_length = SIZE_MAX
      · omega
      · have : ¬ driver.outgoing_data.length > max_length := fun hgt => hcap ⟨hmax, hgt⟩
        omega

theorem get_outgoing_calls_eos (driver : driver_console_t) (max_lengths : List Nat) (i : Nat)
    (hshut : driver.is_shutdown = true)
    (heos : (get_outgoing_calls driver max_lengths)[i]? = some none) :
    chunks_concat ((get_outgoing_calls driver max_lengths).take i) = driver.outgoing_data := by
  induction max_lengths generalizing driver i with
  | nil => simp [get_outgoing_calls] at heos
  | cons m rest ih =>
    by_cases hempty : driver.outgoing_data = []
    · have hstep := get_outgoing_eos driver m ⟨hshut, hempty⟩
      cases i with
      | zero => simp [chunks_concat, hempty]
      | succ j =>
        simp only [get_outgoing_calls, hstep, List.getElem?_cons_succ] at heos
        simp only [get_outgoing_calls, hstep, List.take_succ_cons, chunks_concat]
        exact ih driver j hshut heos
    · obtain ⟨n, hstep, _⟩ := get_outgoing_data driver m (fun h => hempty h.2)
      cases i with
      | zero => simp [get_outgoing_calls, hstep] at heos
      | succ j =>
        simp only [get_outgoing_calls, hstep, List.getElem?_cons_succ] at heos
        simp only [get_outgoing_calls, hstep, List.take_succ_cons, chunks_concat]
        rw [ih { driver with outgoing_data := driver.outgoing_data.drop n } j hshut heos]
        exact List.take_append_drop n driver.outgoing_data

/-! ## Lemmas on where `strstr` finds the domain -/

theorem strstr_some (text D : List Nat) (p : Nat) (h : strstr text D = some p) :
    D <+: text.drop p ∧ (D = [] → p = 0) := by
  induction text generalizing p with
  | nil =>
    unfold strstr at h
    split_ifs at h with hD
    cases h
    have : D = [] := List.isEmpty_iff.mp hD
    subst this
    exact ⟨List.nil_prefix, fun _ => rfl⟩
  | cons c rest ih =>
    unfold strstr at h
    split_ifs at h with hpre
    · cases h
      exact ⟨List.isPrefixOf_iff_prefix.mp hpre, fun _ => rfl⟩
    · cases hq : strstr rest D with
      | none => simp [hq] at h
      | some q =>
        simp only [hq, Option.map_some', Option.some.injEq] at h
        subst h
        refine ⟨(ih q hq).1, ?_⟩
        intro hD
        subst hD
        simp at hpre

theorem strstr_some_le (text D : List Nat) (p : Nat) (h : strstr text D = some p) :
    p ≤ text.length := by
  induction text generalizing p with
  | nil =>
    unfold strstr at h
    split_ifs at h
    cases h
    exact Nat.le_refl _
  | cons c rest ih =>
    unfold strstr at h
    split_ifs at h with hpre
    · cases h
      exact Nat.zero_le _
    · cases hq : strstr rest D with
      | none => simp [hq] at h
      | some q =>
        simp only [hq, Option.map_some', Option.some.injEq] at h
        subst h
        have := ih q hq
        simp only [List.length_cons]
        omega

theorem strstr_none_iff (text D : List Nat) : strstr text D = none ↔ ¬ D <:+: text := by
  induction text with
  | nil =>
    unfold strstr
    cases D with
    | nil => simp
    | cons x xs => simp
  | cons c rest ih =>
    unfold strstr
    rw [List.infix_cons_iff]
    by_cases hpre : D.isPrefixOf (c :: rest) = true
    · have := List.isPrefixOf_iff_prefix.mp hpre
      simp [hpre, this]
    · have hnot : ¬ D <+: c :: rest := fun hp => hpre (List.isPrefixOf_iff_prefix.mpr hp)
      simp only [hpre, if_false, Option.map_eq_none', ih, hnot, false_or, Bool.false_eq_true]

theorem getD_take_of_lt (l : List Nat) (p j : Nat) (hj : j < p) :
    (l.take p).getD j 0 = l.getD j 0 := by
  simp [List.getD_eq_getElem?_getD, List.getElem?_take_of_lt hj]

theorem recv_loop_fst_take (answer : List Nat) (p fuel k : Nat) (st : buffer_t × List Event)
    (h : p ≤ 2 * k + 2 * fuel)
    (hodd : p % 2 = 0 ∨ isxdigit (char_at answer p) = false) :
    (recv_loop answer p fuel (2 * k) st).map Prod.fst =
      some (st.1 ++ (List.range' k (p / 2 - k)).filterMap (pair_byte (answer.take p))) := by
  induction fuel generalizing k st with
  | zero =>
    have hlt : ¬ 2 * k < p := by omega
    have hz : p / 2 - k = 0 := by omega
    simp [recv_loop, hlt, hz]
  | succ n ih =>
    unfold recv_loop
    split_ifs with hlt
    · have hstep := ih (k + 1) (recv_pair answer (2 * k) st) (by omega)
      have h2 : 2 * (k + 1) = 2 * k + 2 := by ring
      rw [h2] at hstep
      rw [hstep, recv_pair_fst]
      by_cases hin : 2 * k + 1 < p
      · have hc0 : (answer.take p).getD (2 * k) 0 = char_at answer (2 * k) :=
          getD_take_of_lt answer p _ hlt
        have hc1 : (answer.take p).getD (2 * k + 1) 0 = char_at answer (2 * k + 1) :=
          getD_take_of_lt answer p _ hin
        have hk : p / 2 - k = (p / 2 - (k + 1)) + 1 := by omega
        rw [hk, List.range'_succ, List.filterMap_cons]
        unfold pair_byte
        rw [hc0, hc1]
        split_ifs <;> simp
      · have hp : 2 * k + 1 = p := by omega
        have hx : isxdigit (char_at answer (2 * k + 1)) = false := by
          rw [hp]
          rcases hodd with he | hx
          · omega
          · exact hx
        have hz : p / 2 - k = 0 := by omega
        have hz1 : p / 2 - (k + 1) = 0 := by omega
        simp [hx, hz, hz1]
    · have hz : p / 2 - k = 0 := by omega
      simp [hz]

theorem recv_callback_found (d : dns_driver_t) (dns : dns_t) (text : List Nat) (p : Nat)
    (hr : dns.rcode = DNS_RCODE_SUCCESS) (hqc : dns.question_count = 1)
    (hac : dns.answer_count = 1)
    (hans : dns.answers = [{ type := DNS_TYPE_TEXT, text := text }])
    (hcmp : strcmp text d.domain ≠ 0) (hfound : strstr text d.domain = some p)
    (hodd : p % 2 = 0 ∨ isxdigit (char_at text p) = false) :
    (recv_callback d dns).result = .returned SELECT_OK ∧
      (recv_callback d dns).driver =
        { d with incoming_data := d.incoming_data ++ decoded_pairs (text.take p) } := by
  have hl := recv_loop_fst_take text p p 0
    (d.incoming_data, [.printf "Received: %s\n" [.str text]]) (by omega) hodd
  have hlen : (text.take p).length = p := by
    rw [List.length_take]
    exact Nat.min_eq_left (strstr_some_le text d.domain p hfound)
  simp only [Nat.mul_zero, Nat.sub_zero, ← List.range_eq_range'] at hl
  unfold recv_callback
  simp only [hr, hqc, hac, hans, ne_eq, not_true_eq_false, if_false, List.getElem?_cons_zero,
    if_true, hcmp, hfound]
  cases hrun : recv_loop text p p 0
      (d.incoming_data, [.printf "Received: %s\n" [.str text]]) with
  | none => simp [hrun] at hl
  | some st =>
    simp only [hrun, Option.map_some', Option.some.injEq] at hl
    simp [hl, decoded_pairs, hlen]

/-! ## Lemmas on the incoming queue as a prefix -/

theorem recv_pair_frame (answer : List Nat) (i : Nat) (q b : buffer_t) (t : List Event) :
    recv_pair answer i (q ++ b, t) =
      (q ++ (recv_pair answer i (b, t)).1, (recv_pair answer i (b, t)).2) := by
  unfold recv_pair
  split_ifs <;> simp [buffer_add_int8]

theorem recv_loop_frame (answer : List Nat) (domain fuel i : Nat) (q b : buffer_t)
    (t : List Event) :
    recv_loop answer domain fuel i (q ++ b, t) =
      (recv_loop answer domain fuel i (b, t)).map (fun out => (q ++ out.1, out.2)) := by
  induction fuel generalizing i b t with
  | zero =>
    unfold recv_loop
    split_ifs <;> rfl
  | succ n ih =>
    unfold recv_loop
    split_ifs
    · rw [recv_pair_frame]
      exact ih _ _ _
    · rfl

theorem recv_callback_frame (d : dns_driver_t) (dns : dns_t) :
    (recv_callback d dns).driver =
        { d with incoming_data := d.incoming_data ++ decoded_bytes d.domain dns } ∧
      (recv_callback d dns).result =
        (recv_callback (dns_driver_create d.domain [] 0 0) dns).result := by
  unfold decoded_bytes recv_callback
  split_ifs with h1 h2 h3
  · exact ⟨by simp [dns_driver_create, buffer_create], rfl⟩
  · exact ⟨by simp [dns_driver_create, buffer_create], rfl⟩
  · exact ⟨by simp [dns_driver_create, buffer_create], rfl⟩
  · cases h0 : dns.answers[0]? with
    | none => exact ⟨by simp [dns_driver_create, buffer_create], rfl⟩
    | some a =>
      simp only
      by_cases h4 : a.type = DNS_TYPE_TEXT
      · simp only [h4, if_true]
        by_cases h5 : strcmp a.text d.domain = 0
        · simp [h5, dns_driver_create, buffer_create]
        · cases hs : strstr a.text d.domain with
          | none => simp [h5, hs, dns_driver_create, buffer_create]
          | some p =>
            have hframe := recv_loop_frame a.text p p 0 d.incoming_data []
              [.printf "Received: %s\n" [.str a.text]]
            rw [List.append_nil] at hframe
            cases hl : recv_loop a.text p p 0
                ([], [.printf "Received: %s\n" [.str a.text]]) with
            | none =>
              rw [hl] at hframe
              simp [h5, hs, dns_driver_create, buffer_create, hl, hframe]
            | some out =>
              rw [hl] at hframe
              simp [h5, hs, dns_driver_create, buffer_create, hl, hframe]
      · simp [h4, dns_driver_create, buffer_create]

/-! ## Lemmas on the iterations and the reads of the decoding loop -/

theorem recv_loop_indices_spec (domain fuel i : Nat) (h : domain ≤ i + 2 * fuel) :
    (recv_loop_indices domain fuel i).length = (domain - i + 1) / 2 ∧
      ∀ j ∈ recv_loop_indices domain fuel i, j < domain := by
  induction fuel generalizing i with
  | zero =>
    have hz : domain - i = 0 := by omega
    simp [recv_loop_indices, hz]
  | succ n ih =>
    unfold recv_loop_indices
    split_ifs with hlt
    · obtain ⟨hlen, hmem⟩ := ih (i + 2) (by omega)
      refine ⟨?_, ?_⟩
      · simp only [List.length_cons, hlen]
        omega
      · intro j hj
        rcases List.mem_cons.mp hj with hj | hj
        · omega
        · exact hmem j hj
    · have hz : domain - i = 0 := by omega
      simp [hz]

theorem recv_loop_eq_foldl (answer : List Nat) (domain fuel i : Nat)
    (st : buffer_t × List Event) (h : domain ≤ i + 2 * fuel) :
    recv_loop answer domain fuel i st =
      some ((recv_loop_indices domain fuel i).foldl (fun acc j => recv_pair answer j acc) st) := by
  induction fuel generalizing i st with
  | zero =>
    have hlt : ¬ i < domain := by omega
    simp [recv_loop, recv_loop_indices, hlt]
  | succ n ih =>
    unfold recv_loop recv_loop_indices
    split_ifs with hlt
    · rw [ih (i + 2) _ (by omega)]
      rfl
    · rfl

theorem recv_pair_ext (text other : List Nat) (i : Nat) (st : buffer_t × List Event)
    (h : ∀ j ∈ recv_pair_reads text i, char_at other j = char_at text j) :
    recv_pair other i st = recv_pair text i st := by
  unfold recv_pair_reads at h
  by_cases hdot : char_at text i = 46
  · simp only [hdot, if_true, List.mem_singleton, forall_eq] at h
    simp [recv_pair, h, hdot]
  · simp only [hdot, if_false, List.mem_cons, List.mem_singleton, forall_eq_or_imp, forall_eq,
      List.mem_nil_iff, or_false] at h
    unfold recv_pair
    rw [h.1, h.2]

theorem recv_callback_ends (d : dns_driver_t) (dns : dns_t)
    (hwf : dns.answers.length = dns.answer_count) :
    (recv_callback d dns).result = .exited 1 ∨
      (recv_callback d dns).result = .returned SELECT_OK := by
  by_cases hr : dns.rcode = DNS_RCODE_SUCCESS
  · by_cases hqc : dns.question_count = 1
    · by_cases hac : dns.answer_count = 1
      · rw [hac] at hwf
        obtain ⟨a, ha⟩ := List.length_eq_one.mp hwf
        have h0 : dns.answers[0]? = some a := by rw [ha]; rfl
        by_cases htype : a.type = DNS_TYPE_TEXT
        · exact Or.inr (recv_callback_text_returns d dns a hr hqc hac h0 htype)
        · exact Or.inl (recv_callback_type_exits d dns a hr hqc hac h0 htype)
      · left
        unfold recv_callback
        simp [hr, hqc, hac]
    · left
      unfold recv_callback
      simp [hr, hqc]
  · right
    unfold recv_callback
    simp [hr]

theorem recv_callback_answers_unread (d : dns_driver_t) (dns : dns_t)
    (hac : dns.answer_count ≠ 1) (answers : List answer_t) :
    recv_callback d { dns with answers := answers } = recv_callback d dns := by
  unfold recv_callback
  by_cases hr : dns.rcode = DNS_RCODE_SUCCESS
  · by_cases hqc : dns.question_count = 1
    · simp [hr, hqc, hac]
    · simp [hr, hqc]
  · simp [hr]

/-! ## Lemmas on `driver_dns_close`, `driver_dns_cleanup` and the located domain -/

theorem close_descriptor_cases (d : dns_driver_t) :
    (d.s ≠ -1 → d.s ≠ 0 →
      (driver_dns_close d).result = .returned () ∧
        deregistered (driver_dns_close d).trace = [d.s] ∧
        (driver_dns_close d).driver = { d with s := -1 }) ∧
      (d.s = -1 →
        (∃ e, (driver_dns_close d).result = .assert_failed e) ∧
          deregistered (driver_dns_close d).trace = [] ∧
          (driver_dns_close d).driver = d) := by
  constructor
  · intro h1 h0
    rw [(close_sockets d).1 ⟨h0, h1⟩]
    exact ⟨rfl, rfl, rfl⟩
  · intro h1
    rw [(close_sockets d).2 (fun h => h.2 h1)]
    exact ⟨⟨_, rfl⟩, rfl, rfl⟩

theorem cleanup_descriptor_cases (d : dns_driver_t) :
    (d.s ≠ -1 → d.s ≠ 0 →
      (driver_dns_cleanup d).result = .returned () ∧
        (driver_dns_cleanup d).trace =
          [.printf "[[DNS]] :: cleanup()\n" [], .printf "[[UDP]] :: close()\n" [],
            .select_group_remove_and_close_socket d.s, .buffer_destroy,
            .safe_free "d->domain", .safe_free "d->dns_host", .safe_free "d"] ∧
        (driver_dns_cleanup (driver_dns_close d).driver).result = .returned () ∧
        deregistered ((driver_dns_close d).trace ++
          (driver_dns_cleanup (driver_dns_close d).driver).trace) = [d.s]) ∧
      (d.s = -1 →
        (driver_dns_cleanup d).result = .returned () ∧
          (driver_dns_cleanup d).trace =
            [.printf "[[DNS]] :: cleanup()\n" [], .buffer_destroy,
              .safe_free "d->domain", .safe_free "d->dns_host", .safe_free "d"]) := by
  have habsent : ∀ e : dns_driver_t, e.s = -1 →
      driver_dns_cleanup e =
        { driver := e,
          trace := [.printf "[[DNS]] :: cleanup()\n" [], .buffer_destroy,
            .safe_free "d->domain", .safe_free "d->dns_host", .safe_free "d"],
          result := .returned () } := by
    intro e he
    simp [driver_dns_cleanup, he]
  constructor
  · intro h1 h0
    have hclose := (close_sockets d).1 ⟨h0, h1⟩
    have hclean : driver_dns_cleanup d =
        { driver := { d with s := -1 },
          trace := [.printf "[[DNS]] :: cleanup()\n" [], .printf "[[UDP]] :: close()\n" [],
            .select_group_remove_and_close_socket d.s, .buffer_destroy,
            .safe_free "d->domain", .safe_free "d->dns_host", .safe_free "d"],
          result := .returned () } := by
      unfold driver_dns_cleanup
      simp [h1, hclose]
    rw [hclean, hclose, habsent { d with s := -1 } rfl]
    exact ⟨rfl, rfl, rfl, rfl⟩
  · intro h1
    rw [habsent d h1]
    exact ⟨rfl, rfl⟩

theorem recv_callback_domain_absent (d : dns_driver_t) (dns : dns_t) (text : List Nat)
    (hnul : ∀ c ∈ text ++ d.domain, c ≠ 0)
    (hne : text ≠ d.domain) (habsent : ¬ d.domain <:+: text)
    (hr : dns.rcode = DNS_RCODE_SUCCESS) (hqc : dns.question_count = 1)
    (hac : dns.answer_count = 1)
    (hans : dns.answers = [{ type := DNS_TYPE_TEXT, text := text }]) :
    (recv_callback d dns).result = .returned SELECT_OK ∧
      (recv_callback d dns).driver = d ∧
      (recv_callback d dns).trace =
        [.printf "Received: %s\n" [.str text],
          .printf "ERROR: Answer didn't contain the domain\n" []] := by
  have hcmp : strcmp text d.domain ≠ 0 := fun h0 =>
    hne (strcmp_eq_zero _ _ (fun c hc => hnul c (List.mem_append_left _ hc))
      (fun c hc => hnul c (List.mem_append_right _ hc)) h0)
  have hstr : strstr text d.domain = none := (strstr_none_iff text d.domain).mpr habsent
  unfold recv_callback
  simp [hr, hqc, hac, hans, hcmp, hstr]

theorem recv_callback_only_prefix (d : dns_driver_t) (dns : dns_t) (text : List Nat) (p : Nat)
    (hodd : p % 2 = 0 ∨ isxdigit (char_at d.domain 0) = false)
    (hcmp : strcmp text d.domain ≠ 0) (hfound : strstr text d.domain = some p)
    (hr : dns.rcode = DNS_RCODE_SUCCESS) (hqc : dns.question_count = 1)
    (hac : dns.answer_count = 1)
    (hans : dns.answers = [{ type := DNS_TYPE_TEXT, text := text }]) :
    (recv_callback d dns).result = .returned SELECT_OK ∧
      (recv_callback d dns).driver.incoming_data =
        d.incoming_data ++ decoded_pairs (text.take p) := by
  have hodd2 : p % 2 = 0 ∨ isxdigit (char_at text p) = false := by
    rcases hodd with heven | hfirst
    · exact Or.inl heven
    · obtain ⟨hpre, hnil⟩ := strstr_some text d.domain p hfound
      obtain ⟨t, ht⟩ := hpre
      cases hD : d.domain with
      | nil =>
        left
        rw [hnil hD]
      | cons c rest =>
        right
        rw [hD] at ht hfirst
        have h0 : (text.drop p)[0]? = some c := by
          rw [← ht]
          simp
        rw [List.getElem?_drop] at h0
        simp only [Nat.add_zero] at h0
        have hc : char_at text p = c := by simp [char_at, List.getD_eq_getElem?_getD, h0]
        rw [hc]
        simpa [char_at] using hfirst
  have h := recv_callback_found d dns text p hr hqc hac hans hcmp hfound hodd2
  refine ⟨h.1, ?_⟩
  rw [h.2]

/-! ## The claims -/

/-- C1: round trip. For a non-empty byte sequence `B` and a domain that begins
with `'.'`, the hex-pair string `driver_dns_send` produces for `B`, followed by
the domain and delivered to `recv_callback` as the single TXT answer of a success
response with one question and one answer, on a driver with an empty incoming
queue, makes the callback return `SELECT_OK` and leaves the queue holding
exactly `B`, the rest of the driver unchanged. -/
theorem C1_round_trip (B D' : List Nat) (d : dns_driver_t) (dns : dns_t)
    (hB : B ≠ []) (hbytes : ∀ b ∈ B, b < 256)
    (hdom : d.domain = 46 :: D') (hempty : d.incoming_data = buffer_create)
    (hr : dns.rcode = DNS_RCODE_SUCCESS) (hqc : dns.question_count = 1)
    (hac : dns.answer_count = 1)
    (hans : dns.answers =
      [{ type := DNS_TYPE_TEXT, text := driver_dns_send_loop buffer_create B ++ d.domain }]) :
    (recv_callback d dns).result = .returned SELECT_OK ∧
      (recv_callback d dns).driver = { d with incoming_data := B } := by
  have hne : strcmp (driver_dns_send_loop buffer_create B ++ d.domain) d.domain ≠ 0 := by
    cases B with
    | nil => exact absurd rfl hB
    | cons b rest =>
      have hx := isxdigit_ne_dot _ (isxdigit_hex_char (b % 256 / 16) (by omega))
      rw [send_loop_cons, hdom]
      simp only [List.cons_append, strcmp, hx, if_false]
      omega
  have hfirst : ∀ j, j < (driver_dns_send_loop buffer_create B).length →
      d.domain.isPrefixOf ((driver_dns_send_loop buffer_create B ++ d.domain).drop j) = false := by
    rw [hdom]
    exact no_dot_no_domain _ D' (fun c hc => isxdigit_ne_dot c (send_loop_isxdigit B c hc))
  have hdec := recv_callback_decode d dns _ D' hdom hr hqc hac hans hne hfirst
  have hmap : B.map (fun b => b % 256) = B := by
    conv_rhs => rw [← List.map_id B]
    exact List.map_congr_left (fun b hb => Nat.mod_eq_of_lt (hbytes b hb))
  rw [decoded_pairs_send_loop, hmap, hempty] at hdec
  simpa [buffer_create] using hdec

/-- Witness of C1: `B = [0x41, 0x42]`, domain `".tunnel.test"`, text
`"4142.tunnel.test"`. -/
theorem C1_round_trip_witness :
    driver_dns_send_loop buffer_create [0x41, 0x42] ++ tunnel_driver.domain =
        cstr "4142.tunnel.test" ∧
      (recv_callback tunnel_driver (txt_response (cstr "4142.tunnel.test"))).result =
        .returned SELECT_OK ∧
      (recv_callback tunnel_driver (txt_response (cstr "4142.tunnel.test"))).driver =
        { tunnel_driver with incoming_data := [0x41, 0x42] } :=
  ⟨by decide,
    C1_round_trip [0x41, 0x42] (cstr "tunnel.test") tunnel_driver
      (txt_response (cstr "4142.tunnel.test")) (by decide) (by decide) (by decide) (by decide)
      (by decide) (by decide) (by decide) (by decide)⟩

/-- C2 (evaluation): for the driver created with domain `".tunnel.test"` and the
payload `[0x41, 0x42]`, the one query `driver_dns_send` transmits asks for the
name `"4142.skullseclabs.org"`, which is not `"4142.tunnel.test"`. -/
theorem C2_send_name_fixed_suffix :
    (driver_dns_send tunnel_driver 3 0 (some [0x41, 0x42])).trace =
        [.udp_create_socket 0 "0.0.0.0" 3, .select_group_add_socket 3, .select_set_recv 3,
          .udp_send 3 (cstr "8.8.8.8") 53
            { trn_id := 0, opcode := DNS_OPCODE_QUERY, flags := DNS_FLAG_RD,
              rcode := DNS_RCODE_SUCCESS, question_count := 1,
              questions := [{ name := cstr "4142.skullseclabs.org", type := DNS_TYPE_TEXT,
                              cls := DNS_CLASS_IN }],
              answer_count := 0, answers := [] }] ∧
      cstr "4142.skullseclabs.org" ≠ cstr "4142.tunnel.test" := by
  decide

/-- C3: for a payload of `n` bytes (`n ≥ 1` included), the name `driver_dns_send` encodes is a
run of exactly `2n` characters followed by the appended suffix, and for every
`k < n` the characters at `2k` and `2k+1` are the lowercase hexadecimal digits
of the high and the low nibble of byte `k`. -/
theorem C3_hex_pairs (B : List Nat) (hbytes : ∀ b ∈ B, b < 256) :
    ∃ pairs : List Nat,
      driver_dns_send_encoded B = pairs ++ cstr ".skullseclabs.org" ∧
      pairs.length = 2 * B.length ∧
      ∀ k, k < B.length →
        (driver_dns_send_encoded B).getD (2 * k) 0 = lower_hex_digit (B.getD k 0 / 16) ∧
        (driver_dns_send_encoded B).getD (2 * k + 1) 0 = lower_hex_digit (B.getD k 0 % 16) := by
  refine ⟨driver_dns_send_loop buffer_create B, send_encoded_eq B, send_loop_length B, ?_⟩
  intro k hk
  have hlen := send_loop_length B
  have hb : B.getD k 0 < 256 := by
    rw [List.getD_eq_getElem _ _ hk]
    exact hbytes _ (List.getElem_mem hk)
  have hget := send_loop_getD B k hk
  rw [Nat.mod_eq_of_lt hb] at hget
  rw [send_encoded_eq, List.getD_append _ _ _ _ (by omega), List.getD_append _ _ _ _ (by omega),
    hget.1, hget.2]
  exact ⟨hex_char_eq_lower_hex_digit _ (by omega), hex_char_eq_lower_hex_digit _ (by omega)⟩

/-- Witness of C3: the payload `[0x4a, 0xf0]` is encoded as `"4af0"` and the suffix. -/
theorem C3_hex_pairs_witness :
    ∃ pairs : List Nat,
      driver_dns_send_encoded [0x4a, 0xf0] = pairs ++ cstr ".skullseclabs.org" ∧
      pairs.length = 2 * [0x4a, 0xf0].length ∧
      ∀ k, k < [0x4a, 0xf0].length →
        (driver_dns_send_encoded [0x4a, 0xf0]).getD (2 * k) 0 =
          lower_hex_digit ([0x4a, 0xf0].getD k 0 / 16) ∧
        (driver_dns_send_encoded [0x4a, 0xf0]).getD (2 * k + 1) 0 =
          lower_hex_digit ([0x4a, 0xf0].getD k 0 % 16) :=
  C3_hex_pairs [0x4a, 0xf0] (by decide)

/-- C4: empty-data marker. When `recv_callback` receives a success response with
one question and one TXT answer whose text is exactly the driver's domain, it
returns `SELECT_OK` and the driver, its incoming queue included, is unchanged. -/
theorem C4_empty_marker (d : dns_driver_t) (dns : dns_t)
    (hr : dns.rcode = DNS_RCODE_SUCCESS) (hqc : dns.question_count = 1)
    (hac : dns.answer_count = 1)
    (hans : dns.answers = [{ type := DNS_TYPE_TEXT, text := d.domain }]) :
    (recv_callback d dns).result = .returned SELECT_OK ∧
      (recv_callback d dns).driver = d ∧
      (recv_callback d dns).driver.incoming_data = d.incoming_data := by
  unfold recv_callback
  simp [hr, hqc, hac, hans, strcmp_self]

/-- Witness of C4: domain `".tunnel.test"`, queue `[7, 8]`, text `".tunnel.test"`. -/
theorem C4_empty_marker_witness :
    (recv_callback { tunnel_driver with incoming_data := [7, 8] }
        (txt_response (cstr ".tunnel.test"))).result = .returned SELECT_OK ∧
      (recv_callback { tunnel_driver with incoming_data := [7, 8] }
        (txt_response (cstr ".tunnel.test"))).driver =
          { tunnel_driver with incoming_data := [7, 8] } ∧
      (recv_callback { tunnel_driver with incoming_data := [7, 8] }
        (txt_response (cstr ".tunnel.test"))).driver.incoming_data = [7, 8] :=
  C4_empty_marker { tunnel_driver with incoming_data := [7, 8] }
    (txt_response (cstr ".tunnel.test")) (by decide) (by decide) (by decide) (by decide)

/-- C5: per-pair dropping. For a domain that begins with `'.'` and an answer text
`P ++ domain` with `P` non-empty and the domain not occurring before offset `|P|`,
`recv_callback` returns `SELECT_OK` and appends to the incoming queue exactly the
bytes of the aligned pairs `(P[2k], P[2k+1])`, `2k+1 < |P|`, whose two characters
are both hexadecimal digits, in increasing `k`; no other pair and no trailing
character contributes a byte, and the rest of the driver is unchanged. The
strings are C strings: they hold no NUL character. -/
theorem C5_per_pair_dropping (P D' : List Nat) (d : dns_driver_t) (dns : dns_t)
    (hdom : d.domain = 46 :: D') (hP : P ≠ [])
    (hnul : ∀ c ∈ P ++ d.domain, c ≠ 0)
    (hfirst : ∀ j, j < P.length → ¬ d.domain <+: (P ++ d.domain).drop j)
    (hr : dns.rcode = DNS_RCODE_SUCCESS) (hqc : dns.question_count = 1)
    (hac : dns.answer_count = 1)
    (hans : dns.answers = [{ type := DNS_TYPE_TEXT, text := P ++ d.domain }]) :
    (recv_callback d dns).result = .returned SELECT_OK ∧
      (recv_callback d dns).driver.incoming_data =
        d.incoming_data ++
          (List.range (P.length / 2)).filterMap (fun k =>
            if isxdigit (P.getD (2 * k) 0) && isxdigit (P.getD (2 * k + 1) 0) then
              some (hex_value (P.getD (2 * k) 0) * 16 + hex_value (P.getD (2 * k + 1) 0))
            else none) ∧
      (recv_callback d dns).driver = { d with incoming_data :=
        (recv_callback d dns).driver.incoming_data } := by
  have hne : strcmp (P ++ d.domain) d.domain ≠ 0 := by
    intro h0
    have heq := strcmp_eq_zero _ _ hnul (fun c hc => hnul c (List.mem_append_right _ hc)) h0
    have hlen := congrArg List.length heq
    have hpos : 0 < P.length := List.length_pos.mpr hP
    simp only [List.length_append] at hlen
    omega
  have hfirst' : ∀ j, j < P.length →
      d.domain.isPrefixOf ((P ++ d.domain).drop j) = false := by
    intro j hj
    cases hb : d.domain.isPrefixOf ((P ++ d.domain).drop j) with
    | false => rfl
    | true => exact absurd (List.isPrefixOf_iff_prefix.mp hb) (hfirst j hj)
  have hdec := recv_callback_decode d dns P D' hdom hr hqc hac hans hne hfirst'
  refine ⟨hdec.1, ?_, ?_⟩
  · rw [hdec.2]
    rfl
  · rw [hdec.2]

/-- Witness of C5: text `"4.1g4a7.tunnel.test"`, whose prefix has a pair with a
dot, a pair with a non-hex character, the valid pair `4a` and a trailing `7`. -/
theorem C5_per_pair_dropping_witness :
    (recv_callback { tunnel_driver with incoming_data := [7] }
        (txt_response (cstr "4.1g4a7.tunnel.test"))).result = .returned SELECT_OK ∧
      (recv_callback { tunnel_driver with incoming_data := [7] }
        (txt_response (cstr "4.1g4a7.tunnel.test"))).driver.incoming_data = [7, 0x4a] := by
  have h := C5_per_pair_dropping (cstr "4.1g4a7") (cstr "tunnel.test")
    { tunnel_driver with incoming_data := [7] } (txt_response (cstr "4.1g4a7.tunnel.test"))
    (by decide) (by decide) (by decide)
    (by
      intro j hj
      rw [← List.isPrefixOf_iff_prefix]
      revert j
      decide)
    (by decide) (by decide) (by decide) (by decide)
  exact ⟨h.1, h.2.1.trans (by decide)⟩

/-- C6 (counterexample): for the driver with domain `".tunnel.test"` and the
answer text `"41g2.tunnel.test"`, the pair `41` is not dropped: the byte `0x41`
is queued, so the queue is not what it was before the call. -/
theorem C6_pair_41_queued :
    (recv_callback tunnel_driver (txt_response (cstr "41g2.tunnel.test"))).driver.incoming_data =
        [0x41] ∧
      (recv_callback tunnel_driver (txt_response (cstr "41g2.tunnel.test"))).driver.incoming_data ≠
        tunnel_driver.incoming_data := by
  decide

/-- C6 (amended): for a driver with domain `".tunnel.test"`, a success response
whose single TXT answer has text `"41g2.tunnel.test"` results in the pair `g2`
being dropped with a warning about the digit `'g'`: the pair `41` is decoded and
the byte `0x41` appended to the queue, no byte is queued for `g2`, and the
callback returns `SELECT_OK`. -/
theorem C6_pair_g2_dropped (d : dns_driver_t) (dns : dns_t)
    (hdom : d.domain = cstr ".tunnel.test")
    (hr : dns.rcode = DNS_RCODE_SUCCESS) (hqc : dns.question_count = 1)
    (hac : dns.answer_count = 1)
    (hans : dns.answers = [{ type := DNS_TYPE_TEXT, text := cstr "41g2.tunnel.test" }]) :
    (recv_callback d dns).result = .returned SELECT_OK ∧
      (recv_callback d dns).driver =
        { d with incoming_data := d.incoming_data ++ [0x41] } ∧
      (recv_callback d dns).trace =
        [.printf "Received: %s\n" [.str (cstr "41g2.tunnel.test")],
          .printf "WARNING: Answer contained an invalid digit: '%c'\n" [.chr 103]] := by
  have h1 : strcmp (cstr "41g2.tunnel.test") (cstr ".tunnel.test") ≠ 0 := by decide
  have h2 : strstr (cstr "41g2.tunnel.test") (cstr ".tunnel.test") = some 4 := by decide
  have c0 : char_at (cstr "41g2.tunnel.test") 0 = 52 := by decide
  have c1 : char_at (cstr "41g2.tunnel.test") 1 = 49 := by decide
  have c2 : char_at (cstr "41g2.tunnel.test") 2 = 103 := by decide
  have c3 : char_at (cstr "41g2.tunnel.test") 3 = 50 := by decide
  have x0 : isxdigit 52 = true := by decide
  have x1 : isxdigit 49 = true := by decide
  have x2 : isxdigit 103 = false := by decide
  have hv : strtol16 [52, 49] % 256 = 65 := by decide
  have hloop : ∀ st : buffer_t × List Event,
      recv_loop (cstr "41g2.tunnel.test") 4 4 0 st =
        some (st.1 ++ [0x41], st.2 ++
          [.printf "WARNING: Answer contained an invalid digit: '%c'\n" [.chr 103]]) := by
    intro st
    simp [recv_loop, recv_pair, c0, c1, c2, c3, x0, x1, x2, hv, buffer_add_int8]
  unfold recv_callback
  simp [hr, hqc, hac, hans, hdom, h1, h2, hloop]

/-- Witness of C6 (amended): the driver with domain `".tunnel.test"` and queue `[9]`. -/
theorem C6_pair_g2_dropped_witness :
    (recv_callback { tunnel_driver with incoming_data := [9] }
        (txt_response (cstr "41g2.tunnel.test"))).driver.incoming_data = [9, 0x41] :=
  (congrArg dns_driver_t.incoming_data
    (C6_pair_g2_dropped { tunnel_driver with incoming_data := [9] }
      (txt_response (cstr "41g2.tunnel.test")) (by decide) (by decide) (by decide) (by decide)
      (by decide)).2.1).trans (by decide)

/-- C7: for every response whose response code is not success, whatever its
question count, answer count and answers, `recv_callback` returns `SELECT_OK`
(the process is not ended), leaves the whole driver (queue and socket included)
unchanged, makes no call other than one `printf`, and that `printf` names the
code: format error, server failure, name error, not implemented, refused, or
"unknown" with the code for every other value. -/
theorem C7_error_rcode (d : dns_driver_t) (dns : dns_t)
    (hr : dns.rcode ≠ DNS_RCODE_SUCCESS) :
    (recv_callback d dns).result = .returned SELECT_OK ∧
      (recv_callback d dns).driver = d ∧
      (dns.rcode = DNS_RCODE_FORMAT_ERROR →
        (recv_callback d dns).trace = [.printf "DNS ERROR: RCODE_FORMAT_ERROR\n" []]) ∧
      (dns.rcode = DNS_RCODE_SERVER_FAILURE →
        (recv_callback d dns).trace = [.printf "DNS ERROR: RCODE_SERVER_FAILURE\n" []]) ∧
      (dns.rcode = DNS_RCODE_NAME_ERROR →
        (recv_callback d dns).trace = [.printf "DNS ERROR: RCODE_NAME_ERROR\n" []]) ∧
      (dns.rcode = DNS_RCODE_NOT_IMPLEMENTED →
        (recv_callback d dns).trace = [.printf "DNS ERROR: RCODE_NOT_IMPLEMENTED\n" []]) ∧
      (dns.rcode = DNS_RCODE_REFUSED →
        (recv_callback d dns).trace = [.printf "DNS ERROR: RCODE_REFUSED\n" []]) ∧
      (dns.rcode ≠ DNS_RCODE_FORMAT_ERROR → dns.rcode ≠ DNS_RCODE_SERVER_FAILURE →
        dns.rcode ≠ DNS_RCODE_NAME_ERROR → dns.rcode ≠ DNS_RCODE_NOT_IMPLEMENTED →
        dns.rcode ≠ DNS_RCODE_REFUSED →
        (recv_callback d dns).trace =
          [.printf "DNS ERROR: Unknown error code (0x%04x)\n" [.int dns.rcode]]) := by
  unfold recv_callback
  simp only [hr, ne_eq, not_false_eq_true, if_true, true_and]
  refine ⟨?_, ?_, ?_, ?_, ?_, ?_⟩
  · intro h
    rw [h]
    rfl
  · intro h
    rw [h]
    rfl
  · intro h
    rw [h]
    rfl
  · intro h
    rw [h]
    rfl
  · intro h
    rw [h]
    rfl
  · intro h1 h2 h3 h4 h5
    simp [rcode_report, h1, h2, h3, h4, h5]

/-- Witness of C7: a "refused" response with no question and seven announced answers. -/
theorem C7_error_rcode_witness :
    (recv_callback { tunnel_driver with s := 4, incoming_data := [1, 2] }
        { txt_response [] with rcode := DNS_RCODE_REFUSED, question_count := 0,
                               answer_count := 7 }).result = .returned SELECT_OK ∧
      (recv_callback { tunnel_driver with s := 4, incoming_data := [1, 2] }
        { txt_response [] with rcode := DNS_RCODE_REFUSED, question_count := 0,
                               answer_count := 7 }).driver =
          { tunnel_driver with s := 4, incoming_data := [1, 2] } :=
  have h := C7_error_rcode { tunnel_driver with s := 4, incoming_data := [1, 2] }
    { txt_response [] with rcode := DNS_RCODE_REFUSED, question_count := 0, answer_count := 7 }
    (by decide)
  ⟨h.1, h.2.1⟩

/-- C8: for a parsed response (as many answer records as its answer count says),
`recv_callback` ends the process, by `exit(1)`, exactly when the response code is
success and the question count is not 1, or the answer count is not 1, or the
single answer is not of type TEXT; for every other response it returns
`SELECT_OK`, never `SELECT_CLOSE_REMOVE`. -/
theorem C8_fatal_iff (d : dns_driver_t) (dns : dns_t)
    (hwf : dns.answers.length = dns.answer_count) :
    ((∃ status, (recv_callback d dns).result = .exited status) ↔
        (dns.rcode = DNS_RCODE_SUCCESS ∧
          (dns.question_count ≠ 1 ∨ dns.answer_count ≠ 1 ∨
            ∃ a, dns.answers = [a] ∧ a.type ≠ DNS_TYPE_TEXT))) ∧
      (¬ (dns.rcode = DNS_RCODE_SUCCESS ∧
          (dns.question_count ≠ 1 ∨ dns.answer_count ≠ 1 ∨
            ∃ a, dns.answers = [a] ∧ a.type ≠ DNS_TYPE_TEXT)) →
        (recv_callback d dns).result = .returned SELECT_OK) ∧
      (recv_callback d dns).result ≠ .returned SELECT_CLOSE_REMOVE := by
  have hcore :
      ((dns.rcode = DNS_RCODE_SUCCESS ∧
          (dns.question_count ≠ 1 ∨ dns.answer_count ≠ 1 ∨
            ∃ a, dns.answers = [a] ∧ a.type ≠ DNS_TYPE_TEXT)) ∧
        (recv_callback d dns).result = .exited 1) ∨
      (¬ (dns.rcode = DNS_RCODE_SUCCESS ∧
          (dns.question_count ≠ 1 ∨ dns.answer_count ≠ 1 ∨
            ∃ a, dns.answers = [a] ∧ a.type ≠ DNS_TYPE_TEXT)) ∧
        (recv_callback d dns).result = .returned SELECT_OK) := by
    by_cases hr : dns.rcode = DNS_RCODE_SUCCESS
    · by_cases hqc : dns.question_count = 1
      · by_cases hac : dns.answer_count = 1
        · rw [hac] at hwf
          obtain ⟨a, ha⟩ := List.length_eq_one.mp hwf
          have h0 : dns.answers[0]? = some a := by rw [ha]; rfl
          by_cases htype : a.type = DNS_TYPE_TEXT
          · right
            refine ⟨?_, recv_callback_text_returns d dns a hr hqc hac h0 htype⟩
            rintro ⟨_, h | h | ⟨b, hb, hbt⟩⟩
            · exact h hqc
            · exact h hac
            · rw [ha] at hb
              cases hb
              exact hbt htype
          · left
            exact ⟨⟨hr, Or.inr (Or.inr ⟨a, ha, htype⟩)⟩,
              recv_callback_type_exits d dns a hr hqc hac h0 htype⟩
        · left
          refine ⟨⟨hr, Or.inr (Or.inl hac)⟩, ?_⟩
          unfold recv_callback
          simp [hr, hqc, hac]
      · left
        refine ⟨⟨hr, Or.inl hqc⟩, ?_⟩
        unfold recv_callback
        simp [hr, hqc]
    · right
      refine ⟨fun h => hr h.1, ?_⟩
      unfold recv_callback
      simp [hr]
  rcases hcore with ⟨hc, hres⟩ | ⟨hc, hres⟩
  · rw [hres]
    exact ⟨⟨fun _ => hc, fun _ => ⟨1, rfl⟩⟩, fun hn => absurd hc hn, by simp⟩
  · rw [hres]
    exact ⟨⟨fun ⟨_, h⟩ => (by cases h), fun h => absurd h hc⟩, fun _ => rfl, by simp⟩

/-- Witness of C8: a success response whose single answer is an A record (type 1)
ends the process. -/
theorem C8_fatal_iff_witness :
    ∃ status, (recv_callback tunnel_driver
      { txt_response [] with answers := [{ type := 1, text := [] }] }).result =
        .exited status :=
  (C8_fatal_iff tunnel_driver { txt_response [] with answers := [{ type := 1, text := [] }] }
    (by decide)).1.mpr ⟨by decide, Or.inr (Or.inr ⟨{ type := 1, text := [] }, by decide⟩)⟩

/-- C9: drain. On a non-empty incoming queue `driver_dns_recv` returns all its
bytes in order and reports their number, whatever `max_length` is, and leaves the
queue empty, so that a following `driver_dns_recv` returns NULL with length 0; on
an empty queue it returns NULL with length 0 and leaves the driver unchanged. -/
theorem C9_drain (d : dns_driver_t) (max_length : Nat) :
    (d.incoming_data ≠ [] →
      (driver_dns_recv d max_length).result =
          .returned (some d.incoming_data, d.incoming_data.length) ∧
        (driver_dns_recv d max_length).driver = { d with incoming_data := [] } ∧
        ∀ next_max, (driver_dns_recv (driver_dns_recv d max_length).driver next_max).result =
          .returned (none, 0)) ∧
      (d.incoming_data = [] →
        (driver_dns_recv d max_length).result = .returned (none, 0) ∧
          (driver_dns_recv d max_length).driver = d) := by
  constructor
  · intro hne
    have hpos : 0 < d.incoming_data.length := List.length_pos.mpr hne
    have hdrv : (driver_dns_recv d max_length).driver = { d with incoming_data := [] } := by
      simp [driver_dns_recv, buffer_get_remaining_bytes, buffer_read_remaining_bytes,
        buffer_consume, hpos]
    refine ⟨?_, hdrv, ?_⟩
    · simp [driver_dns_recv, buffer_get_remaining_bytes, buffer_read_remaining_bytes, hpos]
    · intro next_max
      rw [hdrv]
      simp [driver_dns_recv, buffer_get_remaining_bytes]
  · intro hnil
    simp [driver_dns_recv, buffer_get_remaining_bytes, hnil]

/-- Witness of C9: the queue `[1, 2, 3]` drained with `max_length = 2`. -/
theorem C9_drain_witness :
    (driver_dns_recv { tunnel_driver with incoming_data := [1, 2, 3] } 2).result =
        .returned (some [1, 2, 3], 3) ∧
      (driver_dns_recv { tunnel_driver with incoming_data := [1, 2, 3] } 2).driver =
        tunnel_driver :=
  have h := (C9_drain { tunnel_driver with incoming_data := [1, 2, 3] } 2).1 (by decide)
  ⟨h.1, h.2.1⟩

/-- C10 (counterexample): with no socket and a failing `udp_create_socket`,
`driver_dns_send` returns normally for an empty payload and for a NULL payload. -/
theorem C10_empty_send_returns :
    (driver_dns_send tunnel_driver (-1) 0 (some [])).result = .returned () ∧
      (driver_dns_send tunnel_driver (-1) 0 none).result = .returned () := by
  decide

/-- C10 (amended): `driver_dns_send` called with an empty or NULL payload never
transmits a query; when the driver has a socket or `udp_create_socket` succeeds
it fails an assertion and does not return normally; when the driver has no socket
and `udp_create_socket` fails it reports that and returns, the driver unchanged. -/
theorem C10_empty_send (d : dns_driver_t) (new_socket : Int) (rand : Nat)
    (data : Option (List Nat)) (hdata : data = none ∨ data = some []) :
    (∀ ev ∈ (driver_dns_send d new_socket rand data).trace, is_udp_send ev = false) ∧
      (d.s ≠ -1 ∨ new_socket ≠ -1 →
        ∃ e, (driver_dns_send d new_socket rand data).result = .assert_failed e) ∧
      (d.s = -1 ∧ new_socket = -1 →
        (driver_dns_send d new_socket rand data).result = .returned () ∧
          (driver_dns_send d new_socket rand data).driver = d) := by
  by_cases hs : d.s = -1
  · by_cases hn : new_socket = -1
    · have hrun : driver_dns_send d new_socket rand data =
          { driver := d,
            trace := [.udp_create_socket 0 "0.0.0.0" (-1),
              .printf "[[DNS]] :: couldn't create socket!\n" []],
            result := .returned () } := by
        subst hn
        cases d
        simp_all [driver_dns_send]
      rw [hrun]
      refine ⟨?_, ?_, fun _ => ⟨rfl, rfl⟩⟩
      · intro ev hev
        simp only [List.mem_cons, List.mem_singleton, List.mem_nil_iff, or_false] at hev
        rcases hev with h | h <;> subst h <;> rfl
      · rintro (h | h)
        · exact absurd hs h
        · exact absurd hn h
    · have hrun : driver_dns_send d new_socket rand data =
          driver_dns_send_query { d with s := new_socket }
            ([.udp_create_socket 0 "0.0.0.0" new_socket] ++
              [.select_group_add_socket new_socket, .select_set_recv new_socket])
            rand data := by
        simp [driver_dns_send, hs, hn]
      have hq := send_query_empty { d with s := new_socket }
        ([.udp_create_socket 0 "0.0.0.0" new_socket] ++
          [.select_group_add_socket new_socket, .select_set_recv new_socket]) rand data hdata
      rw [hrun]
      refine ⟨?_, fun _ => hq.1, fun h => absurd h.2 hn⟩
      intro ev hev
      rw [hq.2] at hev
      simp only [List.cons_append, List.nil_append, List.mem_cons, List.mem_singleton,
        List.mem_nil_iff, or_false] at hev
      rcases hev with h | h | h <;> subst h <;> rfl
  · have hrun : driver_dns_send d new_socket rand data =
        driver_dns_send_query d [] rand data := by
      simp [driver_dns_send, hs]
    have hq := send_query_empty d [] rand data hdata
    rw [hrun]
    refine ⟨?_, fun _ => hq.1, fun h => absurd h.1 hs⟩
    intro ev hev
    rw [hq.2] at hev
    simp at hev

/-- Witness of C10 (amended): an empty payload on a driver whose socket is open. -/
theorem C10_empty_send_witness :
    ∃ e, (driver_dns_send { tunnel_driver with s := 5 } 6 0 (some [])).result =
      .assert_failed e :=
  (C10_empty_send { tunnel_driver with s := 5 } 6 0 (some []) (Or.inr rfl)).2.1
    (Or.inl (by decide))

/-- C11: when the driver has no socket and `udp_create_socket` fails,
`driver_dns_send` with a payload (every non-empty one included) returns
normally, makes no call but the failed `udp_create_socket` and one `printf`
(nothing is registered with the select group, nothing is transmitted) and leaves
the driver unchanged, so that the next `driver_dns_send` starts by calling
`udp_create_socket` again. -/
theorem C11_socket_failure (d : dns_driver_t) (rand : Nat) (bytes : List Nat)
    (hs : d.s = -1) :
    (driver_dns_send d (-1) rand (some bytes)).result = .returned () ∧
      (driver_dns_send d (-1) rand (some bytes)).driver = d ∧
      (driver_dns_send d (-1) rand (some bytes)).trace =
        [.udp_create_socket 0 "0.0.0.0" (-1),
          .printf "[[DNS]] :: couldn't create socket!\n" []] ∧
      (∀ ev ∈ (driver_dns_send d (-1) rand (some bytes)).trace,
        is_add_socket ev = false ∧ is_udp_send ev = false) ∧
      ∀ (new_socket : Int) (next_rand : Nat) (data : Option (List Nat)),
        ∃ rest, (driver_dns_send (driver_dns_send d (-1) rand (some bytes)).driver
          new_socket next_rand data).trace =
            .udp_create_socket 0 "0.0.0.0" new_socket :: rest := by
  have hrun : driver_dns_send d (-1) rand (some bytes) =
      { driver := d,
        trace := [.udp_create_socket 0 "0.0.0.0" (-1),
          .printf "[[DNS]] :: couldn't create socket!\n" []],
        result := .returned () } := by
    cases d
    simp_all [driver_dns_send]
  rw [hrun]
  refine ⟨rfl, rfl, rfl, ?_, ?_⟩
  · intro ev hev
    simp only [List.mem_cons, List.mem_singleton, List.mem_nil_iff, or_false] at hev
    rcases hev with h | h <;> subst h <;> exact ⟨rfl, rfl⟩
  · intro new_socket next_rand data
    by_cases hn : new_socket = -1
    · exact ⟨[.printf "[[DNS]] :: couldn't create socket!\n" []],
        by simp [driver_dns_send, hs, hn]⟩
    · have hq := send_query_shape { d with s := new_socket }
        ([.udp_create_socket 0 "0.0.0.0" new_socket] ++
          [.select_group_add_socket new_socket, .select_set_recv new_socket]) next_rand data
      have hsend : driver_dns_send d new_socket next_rand data =
          driver_dns_send_query { d with s := new_socket }
            ([.udp_create_socket 0 "0.0.0.0" new_socket] ++
              [.select_group_add_socket new_socket, .select_set_recv new_socket])
            next_rand data := by
        simp [driver_dns_send, hs, hn]
      rw [hsend]
      rcases hq.2 with h | ⟨q, h⟩
      · exact ⟨_, by rw [h]; rfl⟩
      · exact ⟨_, by rw [h]; rfl⟩

/-- Witness of C11: the fresh driver, a failing `udp_create_socket`, payload `[0x41]`. -/
theorem C11_socket_failure_witness :
    (driver_dns_send tunnel_driver (-1) 7 (some [0x41])).result = .returned () ∧
      (driver_dns_send tunnel_driver (-1) 7 (some [0x41])).driver = tunnel_driver :=
  have h := C11_socket_failure tunnel_driver 7 [0x41] (by decide)
  ⟨h.1, h.2.1⟩

/-- C12: in every state reached from `dns_driver_create` by any sequence of
`driver_dns_send`, `recv_callback`, `driver_dns_recv` and `driver_dns_close`
calls, the number of sockets created exceeds the number closed by 1 when the
socket field is not `-1` and by 0 when it is; and `driver_dns_send` calls
`udp_create_socket` once when the socket field is `-1` and not at all otherwise,
a socket it obtains being registered with the select group and given the
receive callback before anything else happens. -/
theorem C12_one_socket (domain dns_host : List Nat) (dns_port group : Nat)
    (calls : List driver_call) :
    sockets_created (run_calls domain dns_host dns_port group calls).trace =
        sockets_closed (run_calls domain dns_host dns_port group calls).trace +
          (if (run_calls domain dns_host dns_port group calls).driver.s = -1 then 0 else 1) ∧
      ∀ (d : dns_driver_t) (new_socket : Int) (rand : Nat) (data : Option (List Nat)),
        (driver_dns_send d new_socket rand data).trace.countP is_create_call =
            (if d.s = -1 then 1 else 0) ∧
          sockets_created (driver_dns_send d new_socket rand data).trace =
            (if d.s = -1 ∧ new_socket ≠ -1 then 1 else 0) ∧
          (d.s = -1 → new_socket ≠ -1 →
            ∃ rest, (driver_dns_send d new_socket rand data).trace =
              .udp_create_socket 0 "0.0.0.0" new_socket ::
                .select_group_add_socket new_socket :: .select_set_recv new_socket :: rest) := by
  refine ⟨foldl_call_driver_balance calls _ rfl, ?_⟩
  intro d new_socket rand data
  obtain ⟨_, h2, _, h4⟩ := send_sockets d new_socket rand data
  refine ⟨h4, h2, ?_⟩
  intro hs hn
  have hsend : driver_dns_send d new_socket rand data =
      driver_dns_send_query { d with s := new_socket }
        ([.udp_create_socket 0 "0.0.0.0" new_socket] ++
          [.select_group_add_socket new_socket, .select_set_recv new_socket])
        rand data := by
    simp [driver_dns_send, hs, hn]
  have hq := send_query_shape { d with s := new_socket }
    ([.udp_create_socket 0 "0.0.0.0" new_socket] ++
      [.select_group_add_socket new_socket, .select_set_recv new_socket]) rand data
  rw [hsend]
  rcases hq.2 with h | ⟨q, h⟩
  · exact ⟨[], by rw [h]; rfl⟩
  · exact ⟨[.udp_send new_socket d.dns_host d.dns_port q], by rw [h]; rfl⟩

/-- Witness of C12: send, send, close, send, a failed send and close, in a row. -/
theorem C12_one_socket_witness :
    sockets_created (run_calls (cstr ".tunnel.test") (cstr "8.8.8.8") 53 0
        [.send 4 1 (some [0x41]), .send 9 2 (some [0x42]), .close,
          .send (-1) 3 (some [0x43]), .send 5 4 (some [0x44]), .close]).trace = 2 ∧
      sockets_closed (run_calls (cstr ".tunnel.test") (cstr "8.8.8.8") 53 0
        [.send 4 1 (some [0x41]), .send 9 2 (some [0x42]), .close,
          .send (-1) 3 (some [0x43]), .send 5 4 (some [0x44]), .close]).trace = 2 :=
  have h := (C12_one_socket (cstr ".tunnel.test") (cstr "8.8.8.8") 53 0
    [.send 4 1 (some [0x41]), .send 9 2 (some [0x42]), .close,
      .send (-1) 3 (some [0x43]), .send 5 4 (some [0x44]), .close]).1
  ⟨h.trans (by decide), by decide⟩

/-- C13 (evaluation): `driver_dns_send` on the fresh driver, with
`udp_create_socket` returning the descriptor `0`, registers that socket,
transmits over it and returns with `s = 0`, a value other than the marker `-1`;
on that driver `driver_dns_close` fails its assertion, deregisters nothing and
leaves `s = 0`. -/
theorem C13_close_descriptor_zero :
    (driver_dns_send tunnel_driver 0 0 (some [0x41])).result = .returned () ∧
      (driver_dns_send tunnel_driver 0 0 (some [0x41])).driver = { tunnel_driver with s := 0 } ∧
      (driver_dns_send tunnel_driver 0 0 (some [0x41])).trace.map is_add_socket =
        [false, true, false, false] ∧
      (driver_dns_send tunnel_driver 0 0 (some [0x41])).trace.map is_udp_send =
        [false, false, false, true] ∧
      (driver_dns_close { tunnel_driver with s := 0 }).result =
        .assert_failed "d->s && d->s != -1" ∧
      deregistered (driver_dns_close { tunnel_driver with s := 0 }).trace = [] ∧
      (driver_dns_close { tunnel_driver with s := 0 }).driver.s = 0 := by
  decide

/-- C14 (evaluation): from the driver that `driver_dns_send` leaves when
`udp_create_socket` returns the descriptor `0`, a socket state that
`driver_dns_cleanup` takes for open (`d->s != -1`), the cleanup does not
succeed: it calls `driver_dns_close`, whose assertion fails, so that nothing is
deregistered and nothing is released. -/
theorem C14_cleanup_descriptor_zero :
    (driver_dns_send tunnel_driver 0 0 (some [0x41])).result = .returned () ∧
      (driver_dns_cleanup (driver_dns_send tunnel_driver 0 0 (some [0x41])).driver).result =
        .assert_failed "d->s && d->s != -1" ∧
      (driver_dns_cleanup (driver_dns_send tunnel_driver 0 0 (some [0x41])).driver).trace =
        [.printf "[[DNS]] :: cleanup()\n" [], .printf "[[UDP]] :: close()\n" []] ∧
      deregistered
        (driver_dns_cleanup (driver_dns_send tunnel_driver 0 0 (some [0x41])).driver).trace =
          [] := by
  decide

/-- C15: `driver_console_get_outgoing` returns NULL exactly when the shutdown
flag is set and the outgoing queue is empty, and then leaves the driver as it is;
otherwise it returns the first `min(max_length, remaining)` bytes of the queue in
order, reports that count as the length and removes exactly those bytes from the
head of the queue. The length of the queue is one a `size_t` holds. -/
theorem C15_get_outgoing (driver : driver_console_t) (max_length : Nat)
    (hsize : driver.outgoing_data.length ≤ SIZE_MAX) :
    ((driver_console_get_outgoing driver max_length).1 = none ↔
        (driver.is_shutdown = true ∧ driver.outgoing_data = [])) ∧
      (driver.is_shutdown = true ∧ driver.outgoing_data = [] →
        (driver_console_get_outgoing driver max_length).2 = driver) ∧
      (¬ (driver.is_shutdown = true ∧ driver.outgoing_data = []) →
        (driver_console_get_outgoing driver max_length).1 =
            some (driver.outgoing_data.take (min max_length driver.outgoing_data.length),
              min max_length driver.outgoing_data.length) ∧
          (driver_console_get_outgoing driver max_length).2 =
            { driver with outgoing_data :=
                driver.outgoing_data.drop (min max_length driver.outgoing_data.length) }) := by
  by_cases h : driver.is_shutdown = true ∧ driver.outgoing_data = []
  · rw [get_outgoing_eos driver max_length h]
    exact ⟨⟨fun _ => h, fun _ => rfl⟩, fun _ => rfl, fun hn => absurd h hn⟩
  · obtain ⟨n, hstep, hn⟩ := get_outgoing_data driver max_length h
    rw [hstep, hn hsize]
    exact ⟨⟨fun hnone => (by cases hnone), fun hc => absurd hc h⟩, fun hc => absurd hc h,
      fun _ => ⟨rfl, rfl⟩⟩

/-- Witness of C15: a queue of three bytes, not shut down, asked for two. -/
theorem C15_get_outgoing_witness :
    (driver_console_get_outgoing
        { group := 0, is_shutdown := false, outgoing_data := [1, 2, 3] } 2).1 =
        some ([1, 2], 2) ∧
      (driver_console_get_outgoing
        { group := 0, is_shutdown := false, outgoing_data := [1, 2, 3] } 2).2 =
        { group := 0, is_shutdown := false, outgoing_data := [3] } :=
  (C15_get_outgoing { group := 0, is_shutdown := false, outgoing_data := [1, 2, 3] } 2
    (by decide)).2.2 (by decide)

/-- C16: after `console_stdin_closed` has fired on a console driver whose
outgoing queue holds `N` bytes (`N ≥ 1` included), which leaves the queue as it
is, take any sequence of `driver_console_get_outgoing` calls with any
`max_length` values: whenever a call of the sequence returns the end-of-stream
signal, the chunks returned by the calls before it, concatenated in order, are
exactly those `N` bytes; so no end-of-stream comes before all of them are
returned. -/
theorem C16_drain_before_eos (driver : driver_console_t) (max_lengths : List Nat) (i : Nat)
    (heos : (get_outgoing_calls (console_stdin_closed driver).2 max_lengths)[i]? = some none) :
    (console_stdin_closed driver).2.outgoing_data = driver.outgoing_data ∧
      chunks_concat ((get_outgoing_calls (console_stdin_closed driver).2 max_lengths).take i) =
        driver.outgoing_data :=
  ⟨rfl, get_outgoing_calls_eos (console_stdin_closed driver).2 max_lengths i rfl heos⟩

/-- Witness of C16: three staged bytes, calls with `max_length` 2, 0, 5, 1; the
fourth call is the first to return the end-of-stream signal. -/
theorem C16_drain_before_eos_witness :
    get_outgoing_calls
        (console_stdin_closed { group := 0, is_shutdown := false, outgoing_data := [1, 2, 3] }).2
        [2, 0, 5, 1] = [some ([1, 2], 2), some ([], 0), some ([3], 1), none] ∧
      chunks_concat ((get_outgoing_calls
        (console_stdin_closed { group := 0, is_shutdown := false, outgoing_data := [1, 2, 3] }).2
        [2, 0, 5, 1]).take 3) = [1, 2, 3] :=
  ⟨by decide,
    (C16_drain_before_eos { group := 0, is_shutdown := false, outgoing_data := [1, 2, 3] }
      [2, 0, 5, 1] 3 (by decide)).2⟩

/-- C17 (evaluation): for the domain `".tunnel.test"`, the text
`"41.tunnel.testXX"` is not the domain and does not end with it, yet
`recv_callback` takes the occurrence of the domain inside the text, decodes what
precedes it and appends the byte `0x41`; it returns `SELECT_OK` and its output
holds no decode error. -/
theorem C17_not_trailing_decoded :
    cstr "41.tunnel.testXX" ≠ tunnel_driver.domain ∧
      List.isSuffixOf tunnel_driver.domain (cstr "41.tunnel.testXX") = false ∧
      (recv_callback tunnel_driver (txt_response (cstr "41.tunnel.testXX"))).result =
        .returned SELECT_OK ∧
      (recv_callback tunnel_driver (txt_response (cstr "41.tunnel.testXX"))).driver.incoming_data =
        [0x41] ∧
      (recv_callback tunnel_driver (txt_response (cstr "41.tunnel.testXX"))).trace =
        [.printf "Received: %s\n" [.str (cstr "41.tunnel.testXX")]] := by
  decide

/-- C18 (evaluation): for the domain `"a.b"`, whose first character is a
hexadecimal digit, and the text `"4a.b"`, `recv_callback` finds the domain at
offset 1 and appends the byte `0x4a`, decoded from `'4'` and from `'a'`, the
first character of the located domain; the one character before the domain
holds no pair. -/
theorem C18_suffix_character_decoded :
    strstr (cstr "4a.b") (cstr "a.b") = some 1 ∧
      (recv_callback { tunnel_driver with domain := cstr "a.b" }
        (txt_response (cstr "4a.b"))).result = .returned SELECT_OK ∧
      (recv_callback { tunnel_driver with domain := cstr "a.b" }
        (txt_response (cstr "4a.b"))).driver.incoming_data = [0x4a] ∧
      decoded_pairs ((cstr "4a.b").take 1) = [] := by
  decide

/-- C19: append-only ordering. After `recv_callback` the incoming queue is the
queue before, unchanged, followed by the bytes decoded from the response, and
nothing else of the driver changes; after two successive responses with no drain
in between it is the queue before followed by the bytes of the first and then
those of the second, and a following `driver_dns_recv` returns the bytes in that
order. -/
theorem C19_append_only (d : dns_driver_t) (a1 a2 : dns_t) (max_length : Nat) :
    (recv_callback d a1).driver =
        { d with incoming_data := d.incoming_data ++ decoded_bytes d.domain a1 } ∧
      (recv_callback (recv_callback d a1).driver a2).driver.incoming_data =
        d.incoming_data ++ decoded_bytes d.domain a1 ++ decoded_bytes d.domain a2 ∧
      (d.incoming_data ++ decoded_bytes d.domain a1 ++ decoded_bytes d.domain a2 ≠ [] →
        (driver_dns_recv (recv_callback (recv_callback d a1).driver a2).driver max_length).result =
          .returned
            (some (d.incoming_data ++ decoded_bytes d.domain a1 ++ decoded_bytes d.domain a2),
              (d.incoming_data ++ decoded_bytes d.domain a1 ++
                decoded_bytes d.domain a2).length)) := by
  have h1 := (recv_callback_frame d a1).1
  have h2 := (recv_callback_frame (recv_callback d a1).driver a2).1
  have hq : (recv_callback (recv_callback d a1).driver a2).driver.incoming_data =
      d.incoming_data ++ decoded_bytes d.domain a1 ++ decoded_bytes d.domain a2 := by
    rw [h2, h1]
  refine ⟨h1, hq, ?_⟩
  intro hne
  have hpos : 0 < (d.incoming_data ++ decoded_bytes d.domain a1 ++
      decoded_bytes d.domain a2).length := List.length_pos.mpr hne
  unfold driver_dns_recv
  rw [hq]
  simp only [buffer_get_remaining_bytes, buffer_read_remaining_bytes, hpos, gt_iff_lt, if_true,
    ne_eq, not_true_eq_false, false_and, if_false, List.take_length]

/-- Witness of C19: the queue `[7]`, then the answers `"4142.tunnel.test"` and
`"43.tunnel.test"`, then a drain. -/
theorem C19_append_only_witness :
    (driver_dns_recv (recv_callback (recv_callback { tunnel_driver with incoming_data := [7] }
        (txt_response (cstr "4142.tunnel.test"))).driver
        (txt_response (cstr "43.tunnel.test"))).driver 1).result =
      .returned (some [7, 0x41, 0x42, 0x43], 4) :=
  ((C19_append_only { tunnel_driver with incoming_data := [7] }
    (txt_response (cstr "4142.tunnel.test")) (txt_response (cstr "43.tunnel.test")) 1).2.2
      (by decide)).trans (by decide)

/-- C20: the decode step never crashes. For every answer text and every domain
(empty or not) that `strstr` finds in it, at offset `p`: the loop of
`recv_callback` ends, after exactly `ceil(p/2)` runs of its body, at the indices
`0, 2, ...` below `p`; each run reads only `answer[i]` and `answer[i+1]` (its
result is the same on any text that agrees there), and every index read is at
most the length of the text, where the terminating NUL is. And `answers[0]` is
read only when the answer count is 1: with any other count the answers do not
matter, and with a parsed response (as many answers as the count says) the call
never reads outside the array nor runs out of iterations. -/
theorem C20_decode_safe (d : dns_driver_t) (dns : dns_t) (text D : List Nat) (p : Nat)
    (hfound : strstr text D = some p) :
    (∀ st, recv_loop text p p 0 st =
        some ((recv_loop_indices p p 0).foldl (fun acc i => recv_pair text i acc) st)) ∧
      (recv_loop_indices p p 0).length = (p + 1) / 2 ∧
      (∀ i ∈ recv_loop_indices p p 0, i < p ∧
        ∀ j ∈ recv_pair_reads text i, j ≤ text.length) ∧
      (∀ (i : Nat) (other : List Nat) (st : buffer_t × List Event),
        (∀ j ∈ recv_pair_reads text i, char_at other j = char_at text j) →
          recv_pair other i st = recv_pair text i st) ∧
      (dns.answer_count ≠ 1 →
        ∀ answers, recv_callback d { dns with answers := answers } = recv_callback d dns) ∧
      (dns.answers.length = dns.answer_count →
        (recv_callback d dns).result ≠ .fault ∧
          (recv_callback d dns).result ≠ .out_of_fuel) := by
  have hle := strstr_some_le text D p hfound
  obtain ⟨hlen, hmem⟩ := recv_loop_indices_spec p p 0 (by omega)
  refine ⟨fun st => recv_loop_eq_foldl text p p 0 st (by omega), by simpa using hlen, ?_,
    fun i other st h => recv_pair_ext text other i st h,
    fun hac answers => recv_callback_answers_unread d dns hac answers, ?_⟩
  · intro i hi
    have hlt := hmem i hi
    refine ⟨hlt, ?_⟩
    intro j hj
    unfold recv_pair_reads at hj
    split_ifs at hj
    · simp only [List.mem_singleton] at hj
      omega
    · simp only [List.mem_cons, List.mem_singleton, List.mem_nil_iff, or_false] at hj
      omega
  · intro hwf
    rcases recv_callback_ends d dns hwf with h | h <;> rw [h] <;> exact ⟨by simp, by simp⟩

/-- Witness of C20: the text `"41g.tunnel.test"` and the domain `".tunnel.test"`,
found at offset 3: two runs of the body, at the indices 0 and 2. -/
theorem C20_decode_safe_witness :
    recv_loop_indices 3 3 0 = [0, 2] ∧
      (recv_loop_indices 3 3 0).length = (3 + 1) / 2 ∧
      ∀ i ∈ recv_loop_indices 3 3 0, i < 3 ∧
        ∀ j ∈ recv_pair_reads (cstr "41g.tunnel.test") i, j ≤ (cstr "41g.tunnel.test").length :=
  have h := C20_decode_safe tunnel_driver (txt_response (cstr "41g.tunnel.test"))
    (cstr "41g.tunnel.test") (cstr ".tunnel.test") 3 (by decide)
  ⟨by decide, h.2.1, h.2.2.1⟩

end Dnscat2
